import Mathlib

/-!
Shallow embedding of the rust-tuf trust engine (`src/tuf.rs`, `src/metadata.rs`,
`src/error.rs`) in Lean 4, together with theorems settling the specification
claims about it.

Modelling conventions:
* Machine integers (`u32` versions and thresholds, `u64`/`usize` sizes) are
  modelled as `Nat`; the code only compares and decrements them, so no
  overflow is observable.
* `chrono::DateTime<Utc>` timestamps are modelled as `Nat`; `Utc::now()` is an
  ambient input, so every operation that consults the clock takes an explicit
  `now : Nat` argument.  The code's expiration comparison is `expires <= now`.
* Byte strings (canonical metadata encodings, signature bytes, key material)
  are modelled as `Nat` codes.
* `HashMap`/`HashSet` are modelled as association lists / lists; the code never
  depends on iteration order in a way any claim observes (see comments at the
  few iteration sites).
* Rust `&mut self` methods returning `Result<T>` are modelled as functions
  `Tuf → ... → Except Error T × Tuf`: the second component is the final state
  of `self`, which also survives an `Err` return exactly as in Rust.
-/

/-- The TUF role, from `metadata.rs` `enum Role`. -/
inductive Role where
  | Root
  | Snapshot
  | Targets
  | Timestamp
deriving DecidableEq, Repr

/-- Error variants from `error.rs` `enum Error`, restricted to the variants the
embedded trust-engine operations can produce.  Message strings are carried but
abbreviated from the code's `format!` texts. -/
inductive Error where
  | VerificationFailure (msg : String)
  | ExpiredMetadata (role : Role)
  | MissingMetadata (role : Role)
  | IllegalArgument (msg : String)
  | TargetUnavailable
deriving DecidableEq, Repr

deriving instance DecidableEq for Except

/-- Predicate: the result is an `Err(_)`. -/
def isErr {E α : Type} : Except E α → Bool
  | .error _ => true
  | .ok _ => false

/-- Predicate: the result is an `Ok(_)`. -/
def isOkR {E α : Type} : Except E α → Bool
  | .error _ => false
  | .ok _ => true

/-- Predicate: the result is an `Err(Error::VerificationFailure(_))`. -/
def isVerificationFailure {α : Type} : Except Error α → Bool
  | .error (.VerificationFailure _) => true
  | _ => false

/-- Predicate: the result is an `Err(Error::ExpiredMetadata(Role::Root))`. -/
def isExpiredRootError {α : Type} : Except Error α → Bool
  | .error (.ExpiredMetadata .Root) => true
  | _ => false

/-- A signature, from `crypto.rs`: it carries the signing `KeyId` (modelled as
`Nat`) and the raw signature bytes (modelled as `Nat`). -/
structure Signature where
  key_id : Nat
  value : Nat
deriving DecidableEq, Repr

/-- Modelled from the spec: the crypto facade (`crypto.rs` is outside the
embedded core; the spec gives only the contract `verify(bytes, signature) →
ok|err` with deterministic signing).  `sign material bytes` is the unique
valid signature value over `bytes` under the private key `material`. -/
def sign (material : Nat) (bytes : Nat) : Nat :=
  Nat.pair material bytes

/-- A public key, from `crypto.rs`: its deterministic `KeyId` plus the key
material that `sign` pairs with the message. -/
structure PublicKey where
  key_id : Nat
  material : Nat
deriving DecidableEq, Repr

/-- Modelled from the spec: `PublicKey::verify(bytes, signature)` of the crypto
facade accepts exactly the signature produced by the matching private key. -/
def PublicKey.verifySig (k : PublicKey) (bytes : Nat) (s : Signature) : Bool :=
  s.value = sign k.material bytes

/-- The authorized-key map of `SignedMetadata::verify` (metadata.rs 404-460):
`KeyId → PublicKey` built from the iterable, later keys overwriting earlier
ones with the same id. -/
def lookupAuthorized (keys : List PublicKey) (kid : Nat) : Option PublicKey :=
  keys.foldl (fun acc k => if k.key_id = kid then some k else acc) none

/-- Whether one signature entry counts in `SignedMetadata::verify`: its KeyId
resolves in the authorized map and the signature verifies over the canonical
bytes.  (On an invalid signature or unknown KeyId the code logs and
continues.) -/
def sigCounts (canonical : Nat) (keys : List PublicKey) (s : Signature) : Bool :=
  match lookupAuthorized keys s.key_id with
  | some k => k.verifySig canonical s
  | none => false

/-- The signature-counting loop of `SignedMetadata::verify` (metadata.rs
404-460): walk the signatures in order, decrement the needed count on each
counting signature, stop early once it reaches zero; returns the remaining
needed count. -/
def signaturesNeededLoop (canonical : Nat) (keys : List PublicKey) :
    List Signature → Nat → Nat
  | [], needed => needed
  | s :: rest, needed =>
    let needed' := if sigCounts canonical keys s then needed - 1 else needed
    if needed' = 0 then 0 else signaturesNeededLoop canonical keys rest needed'

/-- `SignedMetadata::verify` (metadata.rs 404-460), over the canonical bytes of
the signed payload.  This is also the model of `verify::verify_signatures`
(`verify.rs` is not under `src/`; spec §4.3 specifies the same algorithm:
empty-signature failure, threshold ≥ 1, authorized map, in-order walk with
early stop, accept iff the count reaches the threshold). -/
def verifySignatures (canonical : Nat) (signatures : List Signature)
    (threshold : Nat) (authorized_keys : List PublicKey) : Except Error Unit :=
  if signatures.isEmpty then
    .error (.VerificationFailure "The metadata was not signed with any authorized keys.")
  else if threshold < 1 then
    .error (.VerificationFailure "Threshold must be strictly greater than zero")
  else if signaturesNeededLoop canonical authorized_keys signatures threshold = 0 then
    .ok ()
  else
    .error (.VerificationFailure "Signature threshold not met")

/-- Number of signature entries that count toward the threshold, duplicates
included (the straight count, without the loop's early stop). -/
def validEntryCount (canonical : Nat) (keys : List PublicKey)
    (sigs : List Signature) : Nat :=
  (sigs.filter (sigCounts canonical keys)).length

/-- Distinct KeyIds among the counting signature entries.  This is the
quantity the spec's threshold property speaks about. -/
def distinctValidKeyIds (canonical : Nat) (keys : List PublicKey)
    (sigs : List Signature) : List Nat :=
  ((sigs.filter (sigCounts canonical keys)).map Signature.key_id).dedup

/-- The spec's threshold acceptance criterion, written from the spec's words
(for comparison with `verifySignatures`): "verification succeeds iff at least
`threshold` distinct authorized KeyIds produce valid signatures". -/
def specThresholdOk (canonical : Nat) (keys : List PublicKey)
    (sigs : List Signature) (threshold : Nat) : Bool :=
  threshold ≤ (distinctValidKeyIds canonical keys sigs).length

/-- `RoleDefinition` (metadata.rs): a signature threshold and the authorized
KeyIds (`HashSet<KeyId>` modelled as a list). -/
structure RoleDefinition where
  threshold : Nat
  key_ids : List Nat
deriving DecidableEq, Repr

/-- `RootMetadata` (metadata.rs): version, expiry, consistent-snapshot flag,
the key map (`HashMap<KeyId, PublicKey>` as an association list), and the four
top-level role definitions. -/
structure RootMetadata where
  version : Nat
  expires : Nat
  consistent_snapshot : Bool
  keys : List (Nat × PublicKey)
  root : RoleDefinition
  snapshot : RoleDefinition
  targets : RoleDefinition
  timestamp : RoleDefinition
deriving DecidableEq, Repr

/-- Modelled from the spec: `Verified<RootMetadata>::root_keys` lives in
`verify.rs`, which is not under `src/`.  It yields the values of `keys` whose
id is listed in the root role definition — exactly the filter written out
inline at tuf.rs 49-55. -/
def RootMetadata.root_keys (r : RootMetadata) : List PublicKey :=
  (r.keys.filter (fun kv => r.root.key_ids.contains kv.1)).map Prod.snd

/-- Modelled from the spec: `timestamp_keys`, as `root_keys` but for the
timestamp role (used at tuf.rs 275). -/
def RootMetadata.timestamp_keys (r : RootMetadata) : List PublicKey :=
  (r.keys.filter (fun kv => r.timestamp.key_ids.contains kv.1)).map Prod.snd

/-- Modelled from the spec: `snapshot_keys`, as `root_keys` but for the
snapshot role (used at tuf.rs 390). -/
def RootMetadata.snapshot_keys (r : RootMetadata) : List PublicKey :=
  (r.keys.filter (fun kv => r.snapshot.key_ids.contains kv.1)).map Prod.snd

/-- Modelled from the spec: `targets_keys`, as `root_keys` but for the targets
role (used at tuf.rs 568). -/
def RootMetadata.targets_keys (r : RootMetadata) : List PublicKey :=
  (r.keys.filter (fun kv => r.targets.key_ids.contains kv.1)).map Prod.snd

/-- `MetadataDescription` (metadata.rs): version, size and hash map (hash
algorithms and values modelled as `Nat` codes). -/
structure MetadataDescription where
  version : Nat
  size : Nat
  hashes : List (Nat × Nat)
deriving DecidableEq, Repr

/-- `TimestampMetadata` (metadata.rs). -/
structure TimestampMetadata where
  version : Nat
  expires : Nat
  snapshot : MetadataDescription
deriving DecidableEq, Repr

/-- `SnapshotMetadata` (metadata.rs).  `MetadataPath` keys are identified with
their underlying strings throughout the trust-store embedding. -/
structure SnapshotMetadata where
  version : Nat
  expires : Nat
  meta : List (String × MetadataDescription)
deriving DecidableEq, Repr

/-- `TargetDescription` (metadata.rs): size and hash map. -/
structure TargetDescription where
  size : Nat
  hashes : List (Nat × Nat)
deriving DecidableEq, Repr

/-- `Delegation` (metadata.rs): a delegated role name, terminating flag,
threshold, authorized KeyIds and permitted path prefixes
(`VirtualTargetPath`s identified with their strings). -/
structure Delegation where
  role : String
  terminating : Bool
  threshold : Nat
  key_ids : List Nat
  paths : List String
deriving DecidableEq, Repr

/-- `Delegations` (metadata.rs): the key map plus the ordered roles list. -/
structure Delegations where
  keys : List (Nat × PublicKey)
  roles : List Delegation
deriving DecidableEq, Repr

/-- `TargetsMetadata` (metadata.rs). -/
structure TargetsMetadata where
  version : Nat
  expires : Nat
  targets : List (String × TargetDescription)
  delegations : Option Delegations
deriving DecidableEq, Repr

/-- `RawSignedMetadata`/`SignedMetadata<D, M>`: the signature list and payload.
`canonical` stands for `D::canonicalize(D::serialize(metadata))`, the
deterministic canonical byte encoding the signatures are verified against
(`verify::verify_signatures` parses the raw bytes and checks signatures over
this encoding; parsing itself cannot fail in the model). -/
structure Signed (M : Type) where
  signatures : List Signature
  metadata : M
  canonical : Nat
deriving DecidableEq, Repr

/-- `HashMap::get`, on the association-list model. -/
def mapGet {α : Type} (m : List (String × α)) (k : String) : Option α :=
  (m.find? (fun kv => kv.1 = k)).map Prod.snd

/-- `HashMap::insert`, on the association-list model: replaces any existing
entry for the key. -/
def mapInsert {α : Type} (m : List (String × α)) (k : String) (v : α) :
    List (String × α) :=
  m.filter (fun kv => kv.1 ≠ k) ++ [(k, v)]

/-- The `Tuf` trust store (tuf.rs 19-27): the trusted root plus the optional
trusted timestamp/snapshot/targets and the delegations map. -/
structure Tuf where
  trusted_root : RootMetadata
  trusted_snapshot : Option SnapshotMetadata
  trusted_targets : Option TargetsMetadata
  trusted_timestamp : Option TimestampMetadata
  trusted_delegations : List (String × TargetsMetadata)
deriving DecidableEq, Repr

/-- `Tuf::trusted_timestamp_version` (tuf.rs 126-131): 0 when absent. -/
def Tuf.trusted_timestamp_version (t : Tuf) : Nat :=
  (t.trusted_timestamp.map TimestampMetadata.version).getD 0

/-- `Tuf::trusted_snapshot_version` (tuf.rs 133-138). -/
def Tuf.trusted_snapshot_version (t : Tuf) : Nat :=
  (t.trusted_snapshot.map SnapshotMetadata.version).getD 0

/-- `Tuf::trusted_targets_version` (tuf.rs 140-145). -/
def Tuf.trusted_targets_version (t : Tuf) : Nat :=
  (t.trusted_targets.map TargetsMetadata.version).getD 0

/-- `Tuf::trusted_delegation_version` (tuf.rs 147-152). -/
def Tuf.trusted_delegation_version (t : Tuf) (role : String) : Nat :=
  ((mapGet t.trusted_delegations role).map TargetsMetadata.version).getD 0

/-- `Tuf::trusted_root_unexpired` (tuf.rs 836-842). -/
def Tuf.trusted_root_unexpired (t : Tuf) (now : Nat) :
    Except Error RootMetadata :=
  if t.trusted_root.expires ≤ now then .error (.ExpiredMetadata .Root)
  else .ok t.trusted_root

/-- `Tuf::trusted_snapshot_unexpired` (tuf.rs 844-854). -/
def Tuf.trusted_snapshot_unexpired (t : Tuf) (now : Nat) :
    Except Error SnapshotMetadata :=
  match t.trusted_snapshot with
  | some trusted_snapshot =>
    if trusted_snapshot.expires ≤ now then .error (.ExpiredMetadata .Snapshot)
    else .ok trusted_snapshot
  | none => .error (.MissingMetadata .Snapshot)

/-- `Tuf::trusted_targets_unexpired` (tuf.rs 856-866). -/
def Tuf.trusted_targets_unexpired (t : Tuf) (now : Nat) :
    Except Error TargetsMetadata :=
  match t.trusted_targets with
  | some trusted_targets =>
    if trusted_targets.expires ≤ now then .error (.ExpiredMetadata .Targets)
    else .ok trusted_targets
  | none => .error (.MissingMetadata .Targets)

/-- `Tuf::trusted_timestamp_unexpired` (tuf.rs 867-877). -/
def Tuf.trusted_timestamp_unexpired (t : Tuf) (now : Nat) :
    Except Error TimestampMetadata :=
  match t.trusted_timestamp with
  | some trusted_timestamp =>
    if trusted_timestamp.expires ≤ now then .error (.ExpiredMetadata .Timestamp)
    else .ok trusted_timestamp
  | none => .error (.MissingMetadata .Timestamp)

/-- `Tuf::purge_metadata` (tuf.rs 829-834). -/
def Tuf.purge_metadata (t : Tuf) : Tuf :=
  { t with
    trusted_snapshot := none
    trusted_targets := none
    trusted_timestamp := none
    trusted_delegations := [] }

/-- `Tuf::purge_delegations` (tuf.rs 478-503): for every role described in the
trusted snapshot, drop the trusted delegation if its version exceeds the
snapshot's declared version.  (The code collects the purge set while iterating
the snapshot's meta map and then removes; the set is iteration-order
independent, so a filter is an exact model.) -/
def Tuf.purge_delegations (t : Tuf) : Tuf :=
  match t.trusted_snapshot with
  | none => t
  | some trusted_snapshot =>
    { t with
      trusted_delegations := t.trusted_delegations.filter (fun rv =>
        match mapGet trusted_snapshot.meta rv.1 with
        | some trusted_definition => decide (rv.2.version ≤ trusted_definition.version)
        | none => true) }

/-- `Tuf::update_root` (tuf.rs 155-249).  Verify the candidate against the
trusted root role's keys (§5.1.3), then against its own root role's keys;
equal version is a no-op returning `false`, a lower version is a rollback
failure, otherwise purge all non-root metadata (§5.1.9) and promote.  Root
expiration is deliberately not checked here (tuf.rs 222-223). -/
def Tuf.update_root (t : Tuf) (raw : Signed RootMetadata) :
    Except Error Bool × Tuf :=
  match verifySignatures raw.canonical raw.signatures
      t.trusted_root.root.threshold t.trusted_root.root_keys with
  | .error e => (.error e, t)
  | .ok () =>
    match verifySignatures raw.canonical raw.signatures
        raw.metadata.root.threshold raw.metadata.root_keys with
    | .error e => (.error e, t)
    | .ok () =>
      if raw.metadata.version = t.trusted_root.version then
        (.ok false, t)
      else if raw.metadata.version < t.trusted_root.version then
        (.error (.VerificationFailure "Attempted to roll back root metadata."), t)
      else
        (.ok true, { t.purge_metadata with trusted_root := raw.metadata })

/-- `Tuf::update_timestamp` (tuf.rs 254-337).  Note two behaviors of the
source preserved here: no root-expiration check is performed (FIXME at tuf.rs
259-261), and the trusted snapshot is forgotten (tuf.rs 315-317) *before* the
candidate's expiration check, so that mutation survives an
`ExpiredMetadata(Timestamp)` error. -/
def Tuf.update_timestamp (t : Tuf) (now : Nat) (raw : Signed TimestampMetadata) :
    Except Error (Option TimestampMetadata) × Tuf :=
  match verifySignatures raw.canonical raw.signatures
      t.trusted_root.timestamp.threshold t.trusted_root.timestamp_keys with
  | .error e => (.error e, t)
  | .ok () =>
    if raw.metadata.version < t.trusted_timestamp_version then
      (.error (.VerificationFailure "Attempted to roll back timestamp metadata."), t)
    else if raw.metadata.version = t.trusted_timestamp_version then
      (.ok none, t)
    else
      let t1 := if t.trusted_snapshot_version ≠ raw.metadata.snapshot.version then
          { t with trusted_snapshot := none }
        else t
      if raw.metadata.expires ≤ now then
        (.error (.ExpiredMetadata .Timestamp), t1)
      else
        (.ok (some raw.metadata), { t1 with trusted_timestamp := some raw.metadata })

/-- `Tuf::update_snapshot` (tuf.rs 340-476).  Gates on unexpired root and
timestamp, compares the timestamp's declared snapshot version against the
current trusted snapshot version (rollback / no-op), verifies signatures,
requires the candidate's version to equal the declared one (mix-and-match),
re-checks rollback, invalidates the trusted targets on a targets-version
change, promotes, and purges stale delegations.  The candidate's own
expiration is deliberately not checked (tuf.rs 447-450). -/
def Tuf.update_snapshot (t : Tuf) (now : Nat) (raw : Signed SnapshotMetadata) :
    Except Error Bool × Tuf :=
  match t.trusted_root_unexpired now with
  | .error e => (.error e, t)
  | .ok trusted_root =>
  match t.trusted_timestamp_unexpired now with
  | .error e => (.error e, t)
  | .ok trusted_timestamp =>
  if trusted_timestamp.snapshot.version < t.trusted_snapshot_version then
    (.error (.VerificationFailure "Attempted to roll back snapshot metadata."), t)
  else if trusted_timestamp.snapshot.version = t.trusted_snapshot_version then
    (.ok false, t)
  else
    match verifySignatures raw.canonical raw.signatures
        trusted_root.snapshot.threshold trusted_root.snapshot_keys with
    | .error e => (.error e, t)
    | .ok () =>
      if raw.metadata.version ≠ trusted_timestamp.snapshot.version then
        (.error (.VerificationFailure
          "The timestamp metadata reported another snapshot version."), t)
      else if raw.metadata.version < t.trusted_snapshot_version then
        (.error (.VerificationFailure "Attempted to roll back snapshot metadata"), t)
      else
        let t1 := if t.trusted_targets_version ≠
            ((mapGet raw.metadata.meta "targets").map MetadataDescription.version).getD 0 then
            { t with trusted_targets := none }
          else t
        (.ok true, { t1 with trusted_snapshot := some raw.metadata }.purge_delegations)

/-- `Tuf::update_targets` (tuf.rs 506-601).  Gates on unexpired root and
snapshot, requires the snapshot to describe the targets role, rollback /
no-op against the snapshot's declared targets version, verifies signatures,
mix-and-match version equality, and the candidate's expiration check — which
the source reports as `ExpiredMetadata(Role::Snapshot)` (tuf.rs 593). -/
def Tuf.update_targets (t : Tuf) (now : Nat) (raw : Signed TargetsMetadata) :
    Except Error Bool × Tuf :=
  match t.trusted_root_unexpired now with
  | .error e => (.error e, t)
  | .ok trusted_root =>
  match t.trusted_snapshot_unexpired now with
  | .error e => (.error e, t)
  | .ok trusted_snapshot =>
  match mapGet trusted_snapshot.meta "targets" with
  | none =>
    (.error (.VerificationFailure
      "Snapshot metadata had no description of the targets metadata"), t)
  | some trusted_targets_description =>
  if trusted_targets_description.version < t.trusted_targets_version then
    (.error (.VerificationFailure "Attempted to roll back targets metadata."), t)
  else if trusted_targets_description.version = t.trusted_targets_version then
    (.ok false, t)
  else
    match verifySignatures raw.canonical raw.signatures
        trusted_root.targets.threshold trusted_root.targets_keys with
    | .error e => (.error e, t)
    | .ok () =>
      if raw.metadata.version ≠ trusted_targets_description.version then
        (.error (.VerificationFailure
          "The snapshot metadata reported another targets version."), t)
      else if raw.metadata.expires ≤ now then
        (.error (.ExpiredMetadata .Snapshot), t)
      else
        (.ok true, { t with trusted_targets := some raw.metadata })

/-- `Tuf::find_delegation_threshold_and_keys` (tuf.rs 605-655): resolve the
authorizing threshold and keys for `role` as seen from `parent_role`, keys
filtered to the ids listed in that specific delegation entry. -/
def Tuf.find_delegation_threshold_and_keys (t : Tuf)
    (parent_role role : String) : Option (Nat × List PublicKey) :=
  match (if parent_role = "targets" then t.trusted_targets
         else mapGet t.trusted_delegations parent_role) with
  | none => none
  | some trusted_parent =>
    match trusted_parent.delegations with
    | none => none
    | some trusted_delegations =>
      match trusted_delegations.roles.find? (fun d => d.role = role) with
      | none => none
      | some trusted_delegation =>
        some (trusted_delegation.threshold,
          (trusted_delegations.keys.filter
            (fun kv => trusted_delegation.key_ids.contains kv.1)).map Prod.snd)

/-- `Tuf::update_delegation` (tuf.rs 658-746). -/
def Tuf.update_delegation (t : Tuf) (now : Nat) (parent_role role : String)
    (raw : Signed TargetsMetadata) : Except Error Bool × Tuf :=
  match t.trusted_root_unexpired now with
  | .error e => (.error e, t)
  | .ok _ =>
  match t.trusted_snapshot_unexpired now with
  | .error e => (.error e, t)
  | .ok trusted_snapshot =>
  match t.trusted_targets_unexpired now with
  | .error e => (.error e, t)
  | .ok trusted_targets =>
  if trusted_targets.delegations.isNone then
    (.error (.VerificationFailure "Delegations not authorized"), t)
  else
    match mapGet trusted_snapshot.meta role with
    | none =>
      (.error (.VerificationFailure
        "The delegated role was not present in the snapshot metadata."), t)
    | some trusted_delegation_description =>
    if trusted_delegation_description.version < t.trusted_delegation_version role then
      (.error (.VerificationFailure
        "Snapshot metadata listed an older delegation version"), t)
    else
      match t.find_delegation_threshold_and_keys parent_role role with
      | none =>
        (.error (.VerificationFailure
          "The delegated role is not known to the base targets metadata"), t)
      | some (threshold, keys) =>
        match verifySignatures raw.canonical raw.signatures threshold keys with
        | .error e => (.error e, t)
        | .ok () =>
          if t.trusted_delegation_version role = trusted_delegation_description.version then
            (.ok false, t)
          else if raw.metadata.version ≠ trusted_delegation_description.version then
            (.error (.VerificationFailure
              "The snapshot metadata reported another delegation version."), t)
          else if raw.metadata.expires ≤ now then
            (.error (.ExpiredMetadata .Targets), t)
          else
            (.ok true,
             { t with trusted_delegations :=
                 mapInsert t.trusted_delegations role raw.metadata })

/-- `VirtualTargetPath::is_child` (metadata.rs 1353-1359): true iff the parent
ends with `/` and the path starts with the parent's bytes.  Implemented over
the character lists so that the kernel can evaluate it. -/
def isChild (path parent : String) : Bool :=
  if ¬ (parent.data.getLast? = some '/') then false
  else List.isPrefixOf parent.data path.data

/-- The recursion of `VirtualTargetPath::matches_chain` (metadata.rs
1366-1389): empty chain fails; a single group succeeds iff the target equals
or is a child of some member; otherwise filter every later group by coverage
under the first group and recurse on the tail.  Each recursive call is on a
list exactly one shorter, so `fuel` initialized to the chain's length (as
`matchesChain` does) makes the zero-fuel arm unreachable; the fuel only
makes the recursion structural. -/
def matchesChainGo (path : String) : Nat → List (List String) → Bool
  | _, [] => false
  | _, [g] => g.any (fun p => p = path || isChild path p)
  | 0, _ :: _ :: _ => false
  | fuel + 1, g :: g2 :: rest =>
    matchesChainGo path fuel
      ((g2 :: rest).map (fun group =>
        group.filter (fun parent => g.any (fun p => isChild parent p || parent = p))))

/-- `VirtualTargetPath::matches_chain` (metadata.rs 1366-1389). -/
def matchesChain (path : String) (parents : List (List String)) : Bool :=
  matchesChainGo path parents.length parents

/-- The recursive `lookup` helper inside `Tuf::target_description` (tuf.rs
761-816), with the `&mut visited` set threaded through and returned.  The
Rust recursion needs no fuel (each nested call first inserts an unvisited
role into `visited`, so nesting is bounded by the trusted delegations); here
every recursive call — descending into a child list or stepping to the next
sibling — consumes one unit of `fuel` so that the recursion is structural.
Along any single call chain each call processes a distinct delegation-list
position, so any fuel larger than the total number of delegation entries
(the bound `Tuf.target_description` supplies) makes the zero-fuel branch
unreachable.  Each arm mirrors the source: a visited role, a failed
`matches_chain`, a missing or expired trusted delegation all
`return (delegation.terminating, None)` from the current level (abandoning
the remaining same-level siblings); a direct hit returns
`(terminating, Some)`; a child subtree that comes back terminating
short-circuits with its result; otherwise a subtree hit is returned and a
subtree miss falls through to the next sibling; a present, unexpired
delegation without the target and without child delegations (the `if let`
at tuf.rs 796 has no else) likewise falls through to the next sibling. -/
def lookupGo (t : Tuf) (now : Nat) :
    Nat → Bool → Nat → String → List Delegation → List (List String) →
    List String → (Bool × Option TargetDescription) × List String
  | 0, default_terminate, _, _, _, _, visited =>
    ((default_terminate, none), visited)
  | _ + 1, default_terminate, _, _, [], _, visited =>
    ((default_terminate, none), visited)
  | fuel + 1, default_terminate, current_depth, target_path, d :: rest, parents,
      visited =>
    if visited.contains d.role then ((d.terminating, none), visited)
    else
      -- tuf.rs 774: the role is inserted into `visited` before any other check.
      if current_depth > 0 && !(matchesChain target_path parents) then
        ((d.terminating, none), d.role :: visited)
      else
        match mapGet t.trusted_delegations d.role with
        | none => ((d.terminating, none), d.role :: visited)
        | some trusted_delegation =>
          if trusted_delegation.expires ≤ now then
            ((d.terminating, none), d.role :: visited)
          else
            match mapGet trusted_delegation.targets target_path with
            | some target => ((d.terminating, some target), d.role :: visited)
            | none =>
              match trusted_delegation.delegations with
              | some child =>
                let r := lookupGo t now fuel d.terminating (current_depth + 1)
                  target_path child.roles (parents ++ [d.paths]) (d.role :: visited)
                if r.1.1 then ((true, r.1.2), r.2)
                else
                  match r.1.2 with
                  | some _ => ((r.1.1, r.1.2), r.2)
                  | none =>
                    lookupGo t now fuel default_terminate current_depth
                      target_path rest parents r.2
              | none =>
                lookupGo t now fuel default_terminate current_depth target_path
                  rest parents (d.role :: visited)

/-- Total number of delegation entries reachable through the trusted
delegations map: with the top-level count added, an upper bound for the fuel
`lookupGo` can consume along one call chain. -/
def Tuf.delegationsTotal (t : Tuf) : Nat :=
  (t.trusted_delegations.map (fun rv =>
    match rv.2.delegations with
    | some c => c.roles.length
    | none => 0)).sum

/-- `Tuf::target_description` (tuf.rs 752-827): gate on unexpired root,
snapshot and targets, look the path up directly in the trusted targets, and
otherwise run the delegation walk over the top-level delegations with
`default_terminate = false`, depth 0, empty parents and an empty visited
set; a walk without a hit is `Err(TargetUnavailable)`. -/
def Tuf.target_description (t : Tuf) (now : Nat) (target_path : String) :
    Except Error TargetDescription :=
  match t.trusted_root_unexpired now with
  | .error e => .error e
  | .ok _ =>
  match t.trusted_snapshot_unexpired now with
  | .error e => .error e
  | .ok _ =>
  match t.trusted_targets_unexpired now with
  | .error e => .error e
  | .ok targets =>
  match mapGet targets.targets target_path with
  | some d => .ok d
  | none =>
    match targets.delegations with
    | some d =>
      match (lookupGo t now (d.roles.length + t.delegationsTotal + 1) false 0
          target_path d.roles [] []).1.2 with
      | some desc => .ok desc
      | none => .error .TargetUnavailable
    | none => .error .TargetUnavailable

/-- `PATH_ILLEGAL_COMPONENTS` (metadata.rs 21-25). -/
def PATH_ILLEGAL_COMPONENTS : List (List Char) :=
  [".", ".."].map String.data

/-- `PATH_ILLEGAL_COMPONENTS_CASE_INSENSITIVE` (metadata.rs 27-57): the DOS
device file names, written in upper case exactly as in the source. -/
def PATH_ILLEGAL_COMPONENTS_CASE_INSENSITIVE : List (List Char) :=
  ["CON", "PRN", "AUX", "NUL",
   "COM1", "COM2", "COM3", "COM4", "COM5", "COM6", "COM7", "COM8", "COM9",
   "LPT1", "LPT2", "LPT3", "LPT4", "LPT5", "LPT6", "LPT7", "LPT8", "LPT9",
   "KEYBD$", "CLOCK$", "SCREEN$", "$IDLE$", "CONFIG$"].map String.data

/-- `PATH_ILLEGAL_STRINGS` (metadata.rs 59-102).  Every entry of the source
list is a single character, so the list is modelled as characters: the
punctuation set, the controls U+0000–U+001F, and U+007F. -/
def PATH_ILLEGAL_CHARS : List Char :=
  [':', '\\', '<', '>', '"', '|', '?', '*'] ++
    (List.range 32).map Char.ofNat ++ [Char.ofNat 127]

/-- Rust `str::split('/')` on the character-list representation. -/
def splitSlash (s : List Char) : List (List Char) :=
  s.foldr
    (fun c acc =>
      if c = '/' then [] :: acc
      else match acc with
        | [] => [[c]]
        | a :: rest => (c :: a) :: rest)
    [[]]

/-- One component check of the `safe_path` loop (metadata.rs 121-140): the
component equals an illegal component, or its `to_lowercase()` image equals
one of the case-insensitive names.  The source compares the lowercased
component against the *upper-case* constants, so the second disjunct is
never true; it is embedded as written.  `Char.toLower` agrees with Rust
`to_lowercase` on ASCII, and every constant is ASCII. -/
def componentBad (component : List Char) : Bool :=
  PATH_ILLEGAL_COMPONENTS.contains component ||
  PATH_ILLEGAL_COMPONENTS_CASE_INSENSITIVE.contains (component.map Char.toLower)

/-- `safe_path` (metadata.rs 104-145): reject the empty path, a leading `/`,
any illegal character, and any illegal component. -/
def safe_path (path : String) : Except Error Unit :=
  if path = "" then .error (.IllegalArgument "Path cannot be empty")
  else if path.data.head? = some '/' then
    .error (.IllegalArgument "Cannot start with slash")
  else if path.data.any (fun c => PATH_ILLEGAL_CHARS.contains c) then
    .error (.IllegalArgument "Path cannot contain an illegal string")
  else if (splitSlash path.data).any componentBad then
    .error (.IllegalArgument "Path cannot have an illegal component")
  else .ok ()

/-- `MetadataPath` (metadata.rs 832) as a validated wrapper; the trust-store
embedding above identifies it with its underlying string. -/
structure MetadataPath where
  value : String
deriving DecidableEq, Repr

/-- `MetadataPath::new` (metadata.rs 848-851). -/
def MetadataPath.new (path : String) : Except Error MetadataPath :=
  match safe_path path with
  | .error e => .error e
  | .ok () => .ok ⟨path⟩

/-- `VirtualTargetPath` (metadata.rs 1302) as a validated wrapper. -/
structure VirtualTargetPath where
  value : String
deriving DecidableEq, Repr

/-- `VirtualTargetPath::new` (metadata.rs 1318-1321). -/
def VirtualTargetPath.new (path : String) : Except Error VirtualTargetPath :=
  match safe_path path with
  | .error e => .error e
  | .ok () => .ok ⟨path⟩

/-- `TargetPath` (metadata.rs 1412) as a validated wrapper. -/
structure TargetPath where
  value : String
deriving DecidableEq, Repr

/-- `TargetPath::new` (metadata.rs 1416-1419). -/
def TargetPath.new (path : String) : Except Error TargetPath :=
  match safe_path path with
  | .error e => .error e
  | .ok () => .ok ⟨path⟩

/-- The claim's illegal-path criterion, written from the spec's words (§8
"Path safety"): empty, leading `/`, an illegal character, a `.` or `..`
component, or a component case-insensitively equal to a Windows device name
(both sides lowercased, as "case-insensitive" means). -/
def specPathIllegal (path : String) : Bool :=
  path = "" ||
  path.data.head? = some '/' ||
  path.data.any (fun c => PATH_ILLEGAL_CHARS.contains c) ||
  (splitSlash path.data).any (fun component =>
    PATH_ILLEGAL_COMPONENTS.contains component ||
    (PATH_ILLEGAL_COMPONENTS_CASE_INSENSITIVE.map (List.map Char.toLower)).contains
      (component.map Char.toLower))

/-- A trust-store update operation together with its input, used to state
properties uniformly over all five `Tuf::update_*` operations. -/
inductive Op where
  | root (raw : Signed RootMetadata)
  | timestamp (raw : Signed TimestampMetadata)
  | snapshot (raw : Signed SnapshotMetadata)
  | targets (raw : Signed TargetsMetadata)
  | delegation (parent_role role : String) (raw : Signed TargetsMetadata)

/-- Run one update operation on the trust store, keeping the Rust result's
error/success shape (the success payload is collapsed to `Unit`) and the
final state of `self`. -/
def applyOp (t : Tuf) (now : Nat) : Op → Except Error Unit × Tuf
  | .root raw =>
    ((t.update_root raw).1.map (fun _ => ()), (t.update_root raw).2)
  | .timestamp raw =>
    ((t.update_timestamp now raw).1.map (fun _ => ()), (t.update_timestamp now raw).2)
  | .snapshot raw =>
    ((t.update_snapshot now raw).1.map (fun _ => ()), (t.update_snapshot now raw).2)
  | .targets raw =>
    ((t.update_targets now raw).1.map (fun _ => ()), (t.update_targets now raw).2)
  | .delegation parent_role role raw =>
    ((t.update_delegation now parent_role role raw).1.map (fun _ => ()),
     (t.update_delegation now parent_role role raw).2)

/-- The trusted version of the role an operation updates (0 when the slot is
empty), the quantity the spec's monotonicity property tracks. -/
def roleVersion (t : Tuf) : Op → Nat
  | .root _ => t.trusted_root.version
  | .timestamp _ => t.trusted_timestamp_version
  | .snapshot _ => t.trusted_snapshot_version
  | .targets _ => t.trusted_targets_version
  | .delegation _ role _ => t.trusted_delegation_version role

/-- Fixture: a root key (id 1, private material 10). -/
def kRoot : PublicKey := ⟨1, 10⟩

/-- Fixture: a timestamp key (id 2, private material 20). -/
def kTs : PublicKey := ⟨2, 20⟩

/-- Fixture: a snapshot key (id 3, private material 30). -/
def kSnap : PublicKey := ⟨3, 30⟩

/-- Fixture: a targets key (id 4, private material 40). -/
def kTgt : PublicKey := ⟨4, 40⟩

/-- Fixture: a delegation key (id 5, private material 50). -/
def kDel : PublicKey := ⟨5, 50⟩

/-- Fixture: a root metadata at version 1, expiring at time 1000, with one key
per role. -/
def root0 : RootMetadata :=
  { version := 1
    expires := 1000
    consistent_snapshot := false
    keys := [(1, kRoot), (2, kTs), (3, kSnap), (4, kTgt)]
    root := ⟨1, [1]⟩
    snapshot := ⟨1, [3]⟩
    targets := ⟨1, [4]⟩
    timestamp := ⟨1, [2]⟩ }

/-- Fixture: a hash map placeholder for descriptions. -/
def hashes0 : List (Nat × Nat) := [(0, 0)]

/-- Fixture: a metadata description of the given version. -/
def descV (v : Nat) : MetadataDescription := ⟨v, 10, hashes0⟩

/-- Fixture state for C1: trusted root `root0`, trusted timestamp version 1 and
trusted snapshot version 1 (both unexpired at time 100). -/
def tC1 : Tuf :=
  { trusted_root := root0
    trusted_snapshot := some ⟨1, 500, [("targets", descV 1)]⟩
    trusted_targets := none
    trusted_timestamp := some ⟨1, 500, descV 1⟩
    trusted_delegations := [] }

/-- Fixture input for C1: a timestamp at version 2, declaring snapshot version
2, correctly signed by the timestamp key, but already expired at time 100. -/
def rawC1 : Signed TimestampMetadata :=
  { signatures := [⟨2, sign 20 202⟩]
    metadata := ⟨2, 50, descV 2⟩
    canonical := 202 }

/-- Fixture state for C4 (and other root-update claims): the freshly
constructed trust store holding only `root0`. -/
def tBase : Tuf :=
  { trusted_root := root0
    trusted_snapshot := none
    trusted_targets := none
    trusted_timestamp := none
    trusted_delegations := [] }

/-- Fixture input for C4: a root at version 2 signed by the root key, whose own
root role lists the same key, so both threshold checks pass. -/
def rawC4 : Signed RootMetadata :=
  { signatures := [⟨1, sign 10 300⟩]
    metadata :=
      { version := 2
        expires := 2000
        consistent_snapshot := false
        keys := [(1, kRoot), (2, kTs), (3, kSnap), (4, kTgt)]
        root := ⟨1, [1]⟩
        snapshot := ⟨1, [3]⟩
        targets := ⟨1, [4]⟩
        timestamp := ⟨1, [2]⟩ }
    canonical := 300 }

/-- Fixture state for C1's witness: like `tC1` but used with a root-update
input whose signatures fail. -/
def rawC1bad : Signed RootMetadata :=
  { signatures := [⟨1, 999⟩]
    metadata := rawC4.metadata
    canonical := 300 }

/-- Fixture state for C3/C8: trusted snapshot at version 2 while the trusted
timestamp also declares snapshot version 2 (the no-op configuration). -/
def tC3 : Tuf :=
  { trusted_root := root0
    trusted_snapshot := some ⟨2, 500, [("targets", descV 1)]⟩
    trusted_targets := none
    trusted_timestamp := some ⟨2, 500, descV 2⟩
    trusted_delegations := [] }

/-- Fixture input for C3: a snapshot at version 1 — strictly below the trusted
version 2 — correctly signed by the snapshot key. -/
def rawC3 : Signed SnapshotMetadata :=
  { signatures := [⟨3, sign 30 203⟩]
    metadata := ⟨1, 500, [("targets", descV 1)]⟩
    canonical := 203 }

/-- Fixture input for C8: a snapshot at version 5 — different from the version
2 declared by the trusted timestamp — correctly signed by the snapshot key. -/
def rawC8 : Signed SnapshotMetadata :=
  { signatures := [⟨3, sign 30 208⟩]
    metadata := ⟨5, 500, [("targets", descV 1)]⟩
    canonical := 208 }

/-- Fixture delegation entries for C5: two sibling delegations `a` and `b`,
both non-terminating, both permitted the path `foo`. -/
def delA : Delegation := ⟨"a", false, 1, [5], ["foo"]⟩

/-- Fixture: the second sibling delegation for C5. -/
def delB : Delegation := ⟨"b", false, 1, [5], ["foo"]⟩

/-- Fixture: the delegated targets metadata of role `b`, which does describe
the target `foo`. -/
def delBMeta : TargetsMetadata :=
  ⟨1, 500, [("foo", ⟨3, hashes0⟩)], none⟩

/-- Fixture state for C5: the trusted targets delegates to `a` then `b`; only
`b` has trusted delegated metadata, and that metadata contains `foo`. -/
def tC5 : Tuf :=
  { trusted_root := root0
    trusted_snapshot := some ⟨1, 500, [("targets", descV 1)]⟩
    trusted_targets := some ⟨1, 500, [], some ⟨[(5, kDel)], [delA, delB]⟩⟩
    trusted_timestamp := some ⟨1, 500, descV 1⟩
    trusted_delegations := [("b", delBMeta)] }

/-- Fixture state for C6: trusted snapshot declares targets version 2 and no
targets metadata is trusted yet. -/
def tC6 : Tuf :=
  { trusted_root := root0
    trusted_snapshot := some ⟨1, 500, [("targets", descV 2)]⟩
    trusted_targets := none
    trusted_timestamp := some ⟨1, 500, descV 1⟩
    trusted_delegations := [] }

/-- Fixture input for C6: a targets metadata at the declared version 2,
correctly signed by the targets key, but expired at time 100. -/
def rawC6 : Signed TargetsMetadata :=
  { signatures := [⟨4, sign 40 400⟩]
    metadata := ⟨2, 50, [], none⟩
    canonical := 400 }

/-- Fixture state for C7: the trusted root is already expired at time 100. -/
def tC7 : Tuf :=
  { trusted_root := { root0 with expires := 50 }
    trusted_snapshot := none
    trusted_targets := none
    trusted_timestamp := none
    trusted_delegations := [] }

/-- Fixture input for C7: a fresh timestamp at version 1, correctly signed by
the timestamp key and unexpired at time 100. -/
def rawC7 : Signed TimestampMetadata :=
  { signatures := [⟨2, sign 20 500⟩]
    metadata := ⟨1, 500, descV 1⟩
    canonical := 500 }

/-- Fixture state for C8's and C10's witnesses: trusted timestamp declares
snapshot version 2 while only snapshot version 1 is trusted, so a snapshot
update proceeds past the no-op check. -/
def tC10 : Tuf :=
  { trusted_root := root0
    trusted_snapshot := some ⟨1, 500, [("targets", descV 1)]⟩
    trusted_targets := none
    trusted_timestamp := some ⟨1, 500, descV 2⟩
    trusted_delegations := [] }

/-- Fixture input for C10: a snapshot at the declared version 2, correctly
signed by the snapshot key, but already expired at time 100. -/
def rawC10 : Signed SnapshotMetadata :=
  { signatures := [⟨3, sign 30 210⟩]
    metadata := ⟨2, 50, [("targets", descV 1)]⟩
    canonical := 210 }

/-- Fixture input for C8's witness: a snapshot at version 3, different from
the declared version 2, correctly signed by the snapshot key. -/
def rawC8w : Signed SnapshotMetadata :=
  { signatures := [⟨3, sign 30 211⟩]
    metadata := ⟨3, 500, [("targets", descV 1)]⟩
    canonical := 211 }

/-- Fixture state for C10's later-operation conjuncts: the trusted snapshot is
expired at time 100 while the root is not. -/
def tC10exp : Tuf :=
  { trusted_root := root0
    trusted_snapshot := some ⟨2, 50, [("targets", descV 1)]⟩
    trusted_targets := some ⟨1, 500, [], none⟩
    trusted_timestamp := some ⟨1, 500, descV 2⟩
    trusted_delegations := [] }

/-- Fixture state for C3's witness: like `tBase` but with the trusted root at
version 5, so that `rawC4` (version 2) is a rollback. -/
def tHigh : Tuf :=
  { trusted_root := { root0 with version := 5 }
    trusted_snapshot := none
    trusted_targets := none
    trusted_timestamp := none
    trusted_delegations := [] }

/-- Fixture: a terminating self-referencing delegation entry (role `a`
delegating back to `a`). -/
def dSelfTerm : Delegation := ⟨"a", true, 1, [5], ["foo"]⟩

/-- Fixture: trusted delegated metadata for role `a` whose own delegations
self-reference `a` terminatingly. -/
def tdA : TargetsMetadata := ⟨1, 500, [], some ⟨[(5, kDel)], [dSelfTerm]⟩⟩

/-- Fixture: trusted delegated metadata for role `a` whose own delegations
self-reference `a` non-terminatingly (via `delA` itself). -/
def tdA2 : TargetsMetadata := ⟨1, 500, [], some ⟨[(5, kDel)], [delA]⟩⟩

/-- Fixture state whose only trusted delegation is `a ↦ tdA`. -/
def twB : Tuf := { tBase with trusted_delegations := [("a", tdA)] }

/-- Fixture state whose only trusted delegation is `a ↦ tdA2`. -/
def twC : Tuf := { tBase with trusted_delegations := [("a", tdA2)] }

/-- Fixture input for C8's targets conjunct: a targets metadata at version 3,
different from the version 2 declared in `tC6`'s snapshot, correctly signed
by the targets key. -/
def rawC8t : Signed TargetsMetadata :=
  { signatures := [⟨4, sign 40 401⟩]
    metadata := ⟨3, 500, [], none⟩
    canonical := 401 }

/-- Fixture: trusted delegated metadata for role `a` that is expired at time
100. -/
def tdExp : TargetsMetadata := ⟨1, 50, [], none⟩

/-- Fixture state whose only trusted delegation is the expired `a ↦ tdExp`. -/
def twD : Tuf := { tBase with trusted_delegations := [("a", tdExp)] }

/-- Fixture: trusted delegated metadata for role `a` that is unexpired, does
not contain `foo`, and has no child delegations (a leaf). -/
def tdLeaf : TargetsMetadata := ⟨1, 500, [], none⟩

/-- Fixture state whose only trusted delegation is the leaf `a ↦ tdLeaf`. -/
def twE : Tuf := { tBase with trusted_delegations := [("a", tdLeaf)] }

/-- Fixture state like `tC5` but with trusted metadata for both roles: the
leaf `tdLeaf` under `a` and `delBMeta` (holding `foo`) under `b`. -/
def twE2 : Tuf := { tC5 with trusted_delegations := [("a", tdLeaf), ("b", delBMeta)] }

theorem isErr_map {α β : Type} (f : α → β) (e : Except Error α) :
    isErr (e.map f) = isErr e := by
  cases e <;> rfl

theorem isOkR_map {α β : Type} (f : α → β) (e : Except Error α) :
    isOkR (e.map f) = isOkR e := by
  cases e <;> rfl

/-- Every error `verifySignatures` can produce is a `VerificationFailure`. -/
theorem verifySignatures_error_shape {c : Nat} {s : List Signature} {th : Nat}
    {k : List PublicKey} {e : Error}
    (h : verifySignatures c s th k = .error e) :
    ∃ msg, e = Error.VerificationFailure msg := by
  unfold verifySignatures at h
  split at h
  · exact ⟨_, (Except.error.inj h).symm⟩
  · split at h
    · exact ⟨_, (Except.error.inj h).symm⟩
    · split at h
      · simp at h
      · exact ⟨_, (Except.error.inj h).symm⟩

/-- `purge_delegations` touches only the delegations map. -/
theorem purge_delegations_fields (t : Tuf) :
    t.purge_delegations.trusted_root = t.trusted_root ∧
    t.purge_delegations.trusted_snapshot = t.trusted_snapshot ∧
    t.purge_delegations.trusted_targets = t.trusted_targets ∧
    t.purge_delegations.trusted_timestamp = t.trusted_timestamp := by
  unfold Tuf.purge_delegations
  split <;> simp

theorem mapGet_mapInsert_self {α : Type} (m : List (String × α)) (k : String) (v : α) :
    mapGet (mapInsert m k v) k = some v := by
  unfold mapGet mapInsert
  induction m with
  | nil => simp
  | cons kv rest ih =>
    by_cases hk : kv.1 = k
    · simp [List.filter_cons, hk]
    · simp only [List.filter_cons, hk]
      simp [List.find?, hk]

/-- The early-stopping countdown of `SignedMetadata::verify` equals truncated
subtraction by the straight count of counting entries. -/
theorem signaturesNeededLoop_eq (c : Nat) (keys : List PublicKey) :
    ∀ (sigs : List Signature) (needed : Nat),
      signaturesNeededLoop c keys sigs needed = needed - validEntryCount c keys sigs := by
  intro sigs
  induction sigs with
  | nil => intro needed; simp [signaturesNeededLoop, validEntryCount]
  | cons s rest ih =>
    intro needed
    have hfilter : validEntryCount c keys (s :: rest) =
        validEntryCount c keys rest + (if sigCounts c keys s then 1 else 0) := by
      by_cases hs : sigCounts c keys s <;> simp [validEntryCount, List.filter_cons, hs]
    by_cases hs : sigCounts c keys s
    · rw [if_pos hs] at hfilter
      by_cases hz : needed - 1 = 0
      · simp [signaturesNeededLoop, hs, hz, hfilter]
        omega
      · simp [signaturesNeededLoop, hs, hz, ih, hfilter]
        omega
    · rw [if_neg hs] at hfilter
      by_cases hz : needed = 0
      · simp [signaturesNeededLoop, hs, hz, hfilter]
      · simp [signaturesNeededLoop, hs, hz, ih, hfilter]

/-- An erroring `update_root` leaves the trust store untouched. -/
theorem update_root_error_state (t : Tuf) (raw : Signed RootMetadata)
    (h : isErr (t.update_root raw).1 = true) : (t.update_root raw).2 = t := by
  cases heq1 : verifySignatures raw.canonical raw.signatures
      t.trusted_root.root.threshold t.trusted_root.root_keys with
  | error e => simp [Tuf.update_root, heq1]
  | ok u =>
    cases u
    cases heq2 : verifySignatures raw.canonical raw.signatures
        raw.metadata.root.threshold raw.metadata.root_keys with
    | error e => simp [Tuf.update_root, heq1, heq2]
    | ok u' =>
      cases u'
      by_cases hv : raw.metadata.version = t.trusted_root.version
      · simp [Tuf.update_root, heq1, heq2, hv, isErr] at h
      · by_cases hlt : raw.metadata.version < t.trusted_root.version
        · simp [Tuf.update_root, heq1, heq2, hv, hlt]
        · simp [Tuf.update_root, heq1, heq2, hv, hlt, isErr] at h

/-- An erroring `update_timestamp` preserves every slot except possibly the
trusted snapshot, which it can only clear. -/
theorem update_timestamp_error_state (t : Tuf) (now : Nat)
    (raw : Signed TimestampMetadata)
    (h : isErr (t.update_timestamp now raw).1 = true) :
    (t.update_timestamp now raw).2.trusted_root = t.trusted_root ∧
    (t.update_timestamp now raw).2.trusted_timestamp = t.trusted_timestamp ∧
    (t.update_timestamp now raw).2.trusted_targets = t.trusted_targets ∧
    (t.update_timestamp now raw).2.trusted_delegations = t.trusted_delegations ∧
    ((t.update_timestamp now raw).2.trusted_snapshot = t.trusted_snapshot ∨
      (t.update_timestamp now raw).2.trusted_snapshot = none) := by
  cases heq1 : verifySignatures raw.canonical raw.signatures
      t.trusted_root.timestamp.threshold t.trusted_root.timestamp_keys with
  | error e => simp [Tuf.update_timestamp, heq1]
  | ok u =>
    cases u
    by_cases hlt : raw.metadata.version < t.trusted_timestamp_version
    · simp [Tuf.update_timestamp, heq1, hlt]
    · by_cases hv : raw.metadata.version = t.trusted_timestamp_version
      · simp [Tuf.update_timestamp, heq1, hlt, hv]
      · by_cases hexp : raw.metadata.expires ≤ now
        · by_cases hsv : t.trusted_snapshot_version = raw.metadata.snapshot.version
          · simp [Tuf.update_timestamp, heq1, hlt, hv, hexp, hsv]
          · simp [Tuf.update_timestamp, heq1, hlt, hv, hexp, hsv]
        · simp [Tuf.update_timestamp, heq1, hlt, hv, hexp, isErr] at h

theorem update_snapshot_error_state (t : Tuf) (now : Nat)
    (raw : Signed SnapshotMetadata)
    (h : isErr (t.update_snapshot now raw).1 = true) :
    (t.update_snapshot now raw).2 = t := by
  cases heqr : t.trusted_root_unexpired now with
  | error e => simp [Tuf.update_snapshot, heqr]
  | ok tr =>
    cases heqt : t.trusted_timestamp_unexpired now with
    | error e => simp [Tuf.update_snapshot, heqr, heqt]
    | ok ts =>
      by_cases h1 : ts.snapshot.version < t.trusted_snapshot_version
      · simp [Tuf.update_snapshot, heqr, heqt, h1]
      · by_cases h2 : ts.snapshot.version = t.trusted_snapshot_version
        · simp [Tuf.update_snapshot, heqr, heqt, h1, h2, isErr] at h
        · cases heqv : verifySignatures raw.canonical raw.signatures
              tr.snapshot.threshold tr.snapshot_keys with
          | error e => simp [Tuf.update_snapshot, heqr, heqt, h1, h2, heqv]
          | ok u =>
            cases u
            by_cases h3 : raw.metadata.version ≠ ts.snapshot.version
            · simp [Tuf.update_snapshot, heqr, heqt, h1, h2, heqv, h3]
            · by_cases h4 : raw.metadata.version < t.trusted_snapshot_version
              · simp [Tuf.update_snapshot, heqr, heqt, h1, h2, heqv, h3, h4]
              · simp [Tuf.update_snapshot, heqr, heqt, h1, h2, heqv, h3, h4, isErr] at h

theorem update_targets_error_state (t : Tuf) (now : Nat)
    (raw : Signed TargetsMetadata)
    (h : isErr (t.update_targets now raw).1 = true) :
    (t.update_targets now raw).2 = t := by
  cases heqr : t.trusted_root_unexpired now with
  | error e => simp [Tuf.update_targets, heqr]
  | ok tr =>
    cases heqs : t.trusted_snapshot_unexpired now with
    | error e => simp [Tuf.update_targets, heqr, heqs]
    | ok snap =>
      cases heqd : mapGet snap.meta "targets" with
      | none => simp [Tuf.update_targets, heqr, heqs, heqd]
      | some desc =>
        by_cases h1 : desc.version < t.trusted_targets_version
        · simp [Tuf.update_targets, heqr, heqs, heqd, h1]
        · by_cases h2 : desc.version = t.trusted_targets_version
          · simp [Tuf.update_targets, heqr, heqs, heqd, h1, h2, isErr] at h
          · cases heqv : verifySignatures raw.canonical raw.signatures
                tr.targets.threshold tr.targets_keys with
            | error e => simp [Tuf.update_targets, heqr, heqs, heqd, h1, h2, heqv]
            | ok u =>
              cases u
              by_cases h3 : raw.metadata.version ≠ desc.version
              · simp [Tuf.update_targets, heqr, heqs, heqd, h1, h2, heqv, h3]
              · by_cases h4 : raw.metadata.expires ≤ now
                · simp [Tuf.update_targets, heqr, heqs, heqd, h1, h2, heqv, h3, h4]
                · simp [Tuf.update_targets, heqr, heqs, heqd, h1, h2, heqv, h3, h4,
                    isErr] at h

theorem update_delegation_error_state (t : Tuf) (now : Nat)
    (parent_role role : String) (raw : Signed TargetsMetadata)
    (h : isErr (t.update_delegation now parent_role role raw).1 = true) :
    (t.update_delegation now parent_role role raw).2 = t := by
  cases heqr : t.trusted_root_unexpired now with
  | error e => simp [Tuf.update_delegation, heqr]
  | ok tr =>
    cases heqs : t.trusted_snapshot_unexpired now with
    | error e => simp [Tuf.update_delegation, heqr, heqs]
    | ok snap =>
      cases heqg : t.trusted_targets_unexpired now with
      | error e => simp [Tuf.update_delegation, heqr, heqs, heqg]
      | ok tgt =>
        by_cases h0 : tgt.delegations.isNone
        · simp [Tuf.update_delegation, heqr, heqs, heqg, h0]
        · cases heqd : mapGet snap.meta role with
          | none => simp [Tuf.update_delegation, heqr, heqs, heqg, h0, heqd]
          | some desc =>
            by_cases h1 : desc.version < t.trusted_delegation_version role
            · simp [Tuf.update_delegation, heqr, heqs, heqg, h0, heqd, h1]
            · cases heqf : t.find_delegation_threshold_and_keys parent_role role with
              | none => simp [Tuf.update_delegation, heqr, heqs, heqg, h0, heqd, h1, heqf]
              | some pr =>
                cases heqv : verifySignatures raw.canonical raw.signatures
                    pr.1 pr.2 with
                | error e =>
                  simp [Tuf.update_delegation, heqr, heqs, heqg, h0, heqd, h1, heqf, heqv]
                | ok u =>
                  cases u
                  by_cases h2 : t.trusted_delegation_version role = desc.version
                  · simp [Tuf.update_delegation, heqr, heqs, heqg, h0, heqd, h1, heqf,
                      heqv, h2, isErr] at h
                  · by_cases h3 : raw.metadata.version ≠ desc.version
                    · simp [Tuf.update_delegation, heqr, heqs, heqg, h0, heqd, h1, heqf,
                        heqv, h2, h3]
                    · by_cases h4 : raw.metadata.expires ≤ now
                      · simp [Tuf.update_delegation, heqr, heqs, heqg, h0, heqd, h1,
                          heqf, heqv, h2, h3, h4]
                      · simp [Tuf.update_delegation, heqr, heqs, heqg, h0, heqd, h1,
                          heqf, heqv, h2, h3, h4, isErr] at h

/-- C1: For every trust-store update operation and every input, if the
operation returns an error then the trust store's state is exactly what it
was before the call — amended: this holds for `update_root`,
`update_snapshot`, `update_targets` and `update_delegation`; an erroring
`update_timestamp` preserves the trusted root, timestamp, targets and
delegations, but may additionally have cleared the trusted snapshot, because
the code forgets the snapshot (tuf.rs 315-317) before the candidate's
expiration check (tuf.rs 328-330). -/
theorem error_leaves_trust_store_unchanged (t : Tuf) (now : Nat) (op : Op)
    (h : isErr (applyOp t now op).1 = true) :
    match op with
    | .timestamp _ =>
        (applyOp t now op).2.trusted_root = t.trusted_root ∧
        (applyOp t now op).2.trusted_timestamp = t.trusted_timestamp ∧
        (applyOp t now op).2.trusted_targets = t.trusted_targets ∧
        (applyOp t now op).2.trusted_delegations = t.trusted_delegations ∧
        ((applyOp t now op).2.trusted_snapshot = t.trusted_snapshot ∨
          (applyOp t now op).2.trusted_snapshot = none)
    | _ => (applyOp t now op).2 = t := by
  cases op with
  | root raw =>
    have h' : isErr (t.update_root raw).1 = true := by
      simpa [applyOp, isErr_map] using h
    simpa [applyOp] using update_root_error_state t raw h'
  | timestamp raw =>
    have h' : isErr (t.update_timestamp now raw).1 = true := by
      simpa [applyOp, isErr_map] using h
    simpa [applyOp] using update_timestamp_error_state t now raw h'
  | snapshot raw =>
    have h' : isErr (t.update_snapshot now raw).1 = true := by
      simpa [applyOp, isErr_map] using h
    simpa [applyOp] using update_snapshot_error_state t now raw h'
  | targets raw =>
    have h' : isErr (t.update_targets now raw).1 = true := by
      simpa [applyOp, isErr_map] using h
    simpa [applyOp] using update_targets_error_state t now raw h'
  | delegation parent_role role raw =>
    have h' : isErr (t.update_delegation now parent_role role raw).1 = true := by
      simpa [applyOp, isErr_map] using h
    simpa [applyOp] using update_delegation_error_state t now parent_role role raw h'

/-- C1 counterexample: at time 100, feeding `tC1` (trusted snapshot present at
version 1) the correctly signed but expired timestamp `rawC1` (version 2,
declaring snapshot version 2) makes `update_timestamp` return an error while
the trusted snapshot slot has been cleared — the trust store is not what it
was before the call. -/
theorem timestamp_error_mutates_trust_store :
    isErr (tC1.update_timestamp 100 rawC1).1 = true ∧
    tC1.trusted_snapshot = some ⟨1, 500, [("targets", descV 1)]⟩ ∧
    (tC1.update_timestamp 100 rawC1).2.trusted_snapshot = none ∧
    (tC1.update_timestamp 100 rawC1).2 ≠ tC1 := by
  refine ⟨by decide, by decide, by decide, by decide⟩

/-- C1 witness: a root update whose signature verification fails leaves the
trust store unchanged. -/
theorem error_leaves_trust_store_unchanged_witness :
    isErr (applyOp tBase 100 (Op.root rawC1bad)).1 = true ∧
    (applyOp tBase 100 (Op.root rawC1bad)).2 = tBase := by
  refine ⟨by decide, ?_⟩
  exact error_leaves_trust_store_unchanged tBase 100 (Op.root rawC1bad) (by decide)

/-- C2: For every signed metadata value, threshold ≥ 1 and collection of
authorized public keys, `SignedMetadata::verify` succeeds iff at least
`threshold` distinct authorized KeyIds have a valid signature — amended:
verification succeeds iff the signature list is nonempty and at least
`threshold` of its entries, walked in order and counted per entry, carry an
authorized KeyId with a valid signature over the canonical bytes; multiple
valid signatures carrying the same KeyId each count toward the threshold
(the authorized-key map deduplicates keys, not signature entries). -/
theorem threshold_counts_entries (canonical : Nat) (sigs : List Signature)
    (threshold : Nat) (keys : List PublicKey) (h : 1 ≤ threshold) :
    verifySignatures canonical sigs threshold keys = .ok () ↔
      (sigs ≠ [] ∧ threshold ≤ validEntryCount canonical keys sigs) := by
  unfold verifySignatures
  rw [signaturesNeededLoop_eq]
  by_cases hemp : sigs.isEmpty
  · simp [hemp, List.isEmpty_iff.mp hemp]
  · have hne : sigs ≠ [] := by
      simpa [List.isEmpty_iff] using hemp
    by_cases hth : threshold < 1
    · omega
    · by_cases hz : threshold - validEntryCount canonical keys sigs = 0
      · simp [hemp, hth, hz, hne]
        omega
      · simp [hemp, hth, hz, hne]
        omega

/-- C2 counterexample: two copies of the same valid signature by the single
authorized key (KeyId 1) meet a threshold of 2, although only one distinct
authorized KeyId signed — the claim's criterion says verification must
fail. -/
theorem duplicate_signatures_reach_threshold :
    verifySignatures 5 [⟨1, sign 10 5⟩, ⟨1, sign 10 5⟩] 2 [kRoot] = .ok () ∧
    specThresholdOk 5 [kRoot] [⟨1, sign 10 5⟩, ⟨1, sign 10 5⟩] 2 = false := by
  refine ⟨by decide, by decide⟩

/-- C2 witness: with threshold 1, a single valid signature by the authorized
key verifies. -/
theorem threshold_counts_entries_witness :
    verifySignatures 5 [⟨1, sign 10 5⟩] 1 [kRoot] = .ok () :=
  (threshold_counts_entries 5 [⟨1, sign 10 5⟩] 1 [kRoot] (by decide)).mpr
    ⟨by decide, by decide⟩

theorem purge_delegations_trusted_snapshot (t : Tuf) :
    t.purge_delegations.trusted_snapshot = t.trusted_snapshot :=
  (purge_delegations_fields t).2.1

/-- A successful `update_root` never lowers the trusted root version. -/
theorem update_root_mono (t : Tuf) (raw : Signed RootMetadata)
    (h : isOkR (t.update_root raw).1 = true) :
    t.trusted_root.version ≤ (t.update_root raw).2.trusted_root.version := by
  cases heq1 : verifySignatures raw.canonical raw.signatures
      t.trusted_root.root.threshold t.trusted_root.root_keys with
  | error e => simp [Tuf.update_root, heq1, isOkR] at h
  | ok u =>
    cases u
    cases heq2 : verifySignatures raw.canonical raw.signatures
        raw.metadata.root.threshold raw.metadata.root_keys with
    | error e => simp [Tuf.update_root, heq1, heq2, isOkR] at h
    | ok u' =>
      cases u'
      by_cases hv : raw.metadata.version = t.trusted_root.version
      · simp [Tuf.update_root, heq1, heq2, hv]
      · by_cases hlt : raw.metadata.version < t.trusted_root.version
        · simp [Tuf.update_root, heq1, heq2, hv, hlt, isOkR] at h
        · simp [Tuf.update_root, heq1, heq2, hv, hlt, Tuf.purge_metadata]
          omega

/-- A successful `update_timestamp` never lowers the trusted timestamp
version. -/
theorem update_timestamp_mono (t : Tuf) (now : Nat) (raw : Signed TimestampMetadata)
    (h : isOkR (t.update_timestamp now raw).1 = true) :
    t.trusted_timestamp_version ≤
      (t.update_timestamp now raw).2.trusted_timestamp_version := by
  cases heq1 : verifySignatures raw.canonical raw.signatures
      t.trusted_root.timestamp.threshold t.trusted_root.timestamp_keys with
  | error e => simp [Tuf.update_timestamp, heq1, isOkR] at h
  | ok u =>
    cases u
    by_cases hlt : raw.metadata.version < t.trusted_timestamp_version
    · simp [Tuf.update_timestamp, heq1, hlt, isOkR] at h
    · by_cases hv : raw.metadata.version = t.trusted_timestamp_version
      · simp [Tuf.update_timestamp, heq1, hlt, hv]
      · by_cases hexp : raw.metadata.expires ≤ now
        · simp [Tuf.update_timestamp, heq1, hlt, hv, hexp, isOkR] at h
        · simp only [Tuf.update_timestamp, heq1]
          rw [if_neg hlt, if_neg hv, if_neg hexp]
          simp [Tuf.trusted_timestamp_version] at hlt hv ⊢
          omega

/-- A successful `update_snapshot` never lowers the trusted snapshot
version. -/
theorem update_snapshot_mono (t : Tuf) (now : Nat) (raw : Signed SnapshotMetadata)
    (h : isOkR (t.update_snapshot now raw).1 = true) :
    t.trusted_snapshot_version ≤
      (t.update_snapshot now raw).2.trusted_snapshot_version := by
  cases heqr : t.trusted_root_unexpired now with
  | error e => simp [Tuf.update_snapshot, heqr, isOkR] at h
  | ok tr =>
    cases heqt : t.trusted_timestamp_unexpired now with
    | error e => simp [Tuf.update_snapshot, heqr, heqt, isOkR] at h
    | ok ts =>
      by_cases h1 : ts.snapshot.version < t.trusted_snapshot_version
      · simp [Tuf.update_snapshot, heqr, heqt, h1, isOkR] at h
      · by_cases h2 : ts.snapshot.version = t.trusted_snapshot_version
        · simp [Tuf.update_snapshot, heqr, heqt, h1, h2]
        · cases heqv : verifySignatures raw.canonical raw.signatures
              tr.snapshot.threshold tr.snapshot_keys with
          | error e => simp [Tuf.update_snapshot, heqr, heqt, h1, h2, heqv, isOkR] at h
          | ok u =>
            cases u
            by_cases h3 : raw.metadata.version ≠ ts.snapshot.version
            · simp [Tuf.update_snapshot, heqr, heqt, h1, h2, heqv, h3, isOkR] at h
            · by_cases h4 : raw.metadata.version < t.trusted_snapshot_version
              · simp [Tuf.update_snapshot, heqr, heqt, h1, h2, heqv, h3, h4, isOkR] at h
              · simp only [Tuf.update_snapshot, heqr, heqt, heqv]
                rw [if_neg h1, if_neg h2, if_neg h3, if_neg h4]
                simp [purge_delegations_trusted_snapshot,
                  Tuf.trusted_snapshot_version] at h4 ⊢
                omega

/-- A successful `update_targets` never lowers the trusted targets version. -/
theorem update_targets_mono (t : Tuf) (now : Nat) (raw : Signed TargetsMetadata)
    (h : isOkR (t.update_targets now raw).1 = true) :
    t.trusted_targets_version ≤
      (t.update_targets now raw).2.trusted_targets_version := by
  cases heqr : t.trusted_root_unexpired now with
  | error e => simp [Tuf.update_targets, heqr, isOkR] at h
  | ok tr =>
    cases heqs : t.trusted_snapshot_unexpired now with
    | error e => simp [Tuf.update_targets, heqr, heqs, isOkR] at h
    | ok snap =>
      cases heqd : mapGet snap.meta "targets" with
      | none => simp [Tuf.update_targets, heqr, heqs, heqd, isOkR] at h
      | some desc =>
        by_cases h1 : desc.version < t.trusted_targets_version
        · simp [Tuf.update_targets, heqr, heqs, heqd, h1, isOkR] at h
        · by_cases h2 : desc.version = t.trusted_targets_version
          · simp [Tuf.update_targets, heqr, heqs, heqd, h1, h2]
          · cases heqv : verifySignatures raw.canonical raw.signatures
                tr.targets.threshold tr.targets_keys with
            | error e =>
              simp [Tuf.update_targets, heqr, heqs, heqd, h1, h2, heqv, isOkR] at h
            | ok u =>
              cases u
              by_cases h3 : raw.metadata.version ≠ desc.version
              · simp [Tuf.update_targets, heqr, heqs, heqd, h1, h2, heqv, h3, isOkR] at h
              · by_cases h4 : raw.metadata.expires ≤ now
                · simp [Tuf.update_targets, heqr, heqs, heqd, h1, h2, heqv, h3, h4,
                    isOkR] at h
                · simp only [Tuf.update_targets, heqr, heqs, heqd, heqv]
                  rw [if_neg h1, if_neg h2, if_neg h3, if_neg h4]
                  simp only [ne_eq, not_not] at h3
                  simp [Tuf.trusted_targets_version] at h1 h2 ⊢
                  omega

/-- A successful `update_delegation` never lowers the trusted version of the
delegated role it updates. -/
theorem update_delegation_mono (t : Tuf) (now : Nat)
    (parent_role role : String) (raw : Signed TargetsMetadata)
    (h : isOkR (t.update_delegation now parent_role role raw).1 = true) :
    t.trusted_delegation_version role ≤
      (t.update_delegation now parent_role role raw).2.trusted_delegation_version role := by
  cases heqr : t.trusted_root_unexpired now with
  | error e => simp [Tuf.update_delegation, heqr, isOkR] at h
  | ok tr =>
    cases heqs : t.trusted_snapshot_unexpired now with
    | error e => simp [Tuf.update_delegation, heqr, heqs, isOkR] at h
    | ok snap =>
      cases heqg : t.trusted_targets_unexpired now with
      | error e => simp [Tuf.update_delegation, heqr, heqs, heqg, isOkR] at h
      | ok tgt =>
        by_cases h0 : tgt.delegations.isNone
        · simp [Tuf.update_delegation, heqr, heqs, heqg, h0, isOkR] at h
        · cases heqd : mapGet snap.meta role with
          | none => simp [Tuf.update_delegation, heqr, heqs, heqg, h0, heqd, isOkR] at h
          | some desc =>
            by_cases h1 : desc.version < t.trusted_delegation_version role
            · simp [Tuf.update_delegation, heqr, heqs, heqg, h0, heqd, h1, isOkR] at h
            · cases heqf : t.find_delegation_threshold_and_keys parent_role role with
              | none =>
                simp [Tuf.update_delegation, heqr, heqs, heqg, h0, heqd, h1, heqf,
                  isOkR] at h
              | some pr =>
                cases heqv : verifySignatures raw.canonical raw.signatures pr.1 pr.2 with
                | error e =>
                  simp [Tuf.update_delegation, heqr, heqs, heqg, h0, heqd, h1, heqf,
                    heqv, isOkR] at h
                | ok u =>
                  cases u
                  by_cases h2 : t.trusted_delegation_version role = desc.version
                  · simp [Tuf.update_delegation, heqr, heqs, heqg, h0, heqd, h1, heqf,
                      heqv, h2]
                  · by_cases h3 : raw.metadata.version ≠ desc.version
                    · simp [Tuf.update_delegation, heqr, heqs, heqg, h0, heqd, h1, heqf,
                        heqv, h2, h3, isOkR] at h
                    · by_cases h4 : raw.metadata.expires ≤ now
                      · simp [Tuf.update_delegation, heqr, heqs, heqg, h0, heqd, h1,
                          heqf, heqv, h2, h3, h4, isOkR] at h
                      · simp only [Tuf.update_delegation, heqr, heqs, heqg, heqd, heqf,
                          heqv]
                        rw [if_neg (by simpa using h0)]
                        rw [if_neg h1, if_neg h2, if_neg h3, if_neg h4]
                        simp only [ne_eq, not_not] at h3
                        simp [Tuf.trusted_delegation_version, mapGet_mapInsert_self]
                          at h1 h2 ⊢
                        omega

/-- C3: Feeding any role's update operation metadata with a version strictly
below the trusted one fails with a verification failure and does not mutate,
and successful updates never lower versions — amended: the
candidate-version rollback error holds for `update_root` and
`update_timestamp`, whose rollback checks read the candidate's own version;
`update_snapshot`, `update_targets` and `update_delegation` compare the
*declared* version from the outer pointer instead, so an older candidate can
also be answered by a silent no-op (see the counterexample) or a
mix-and-match failure.  Monotonicity holds for the role each operation
updates: after any successful `update_*`, the trusted version of the updated
role is at least its previous value. -/
theorem rollback_defense_and_monotonicity :
    (∀ (t : Tuf) (raw : Signed RootMetadata),
      raw.metadata.version < t.trusted_root.version →
      isVerificationFailure (t.update_root raw).1 = true ∧
      (t.update_root raw).2 = t) ∧
    (∀ (t : Tuf) (now : Nat) (raw : Signed TimestampMetadata),
      raw.metadata.version < t.trusted_timestamp_version →
      isVerificationFailure (t.update_timestamp now raw).1 = true ∧
      (t.update_timestamp now raw).2 = t) ∧
    (∀ (t : Tuf) (now : Nat) (op : Op),
      isOkR (applyOp t now op).1 = true →
      roleVersion t op ≤ roleVersion (applyOp t now op).2 op) := by
  refine ⟨?_, ?_, ?_⟩
  · intro t raw hlt
    cases heq1 : verifySignatures raw.canonical raw.signatures
        t.trusted_root.root.threshold t.trusted_root.root_keys with
    | error e =>
      obtain ⟨msg, rfl⟩ := verifySignatures_error_shape heq1
      simp [Tuf.update_root, heq1, isVerificationFailure]
    | ok u =>
      cases u
      cases heq2 : verifySignatures raw.canonical raw.signatures
          raw.metadata.root.threshold raw.metadata.root_keys with
      | error e =>
        obtain ⟨msg, rfl⟩ := verifySignatures_error_shape heq2
        simp [Tuf.update_root, heq1, heq2, isVerificationFailure]
      | ok u' =>
        cases u'
        have hv : ¬ raw.metadata.version = t.trusted_root.version := by omega
        simp [Tuf.update_root, heq1, heq2, hv, hlt, isVerificationFailure]
  · intro t now raw hlt
    cases heq1 : verifySignatures raw.canonical raw.signatures
        t.trusted_root.timestamp.threshold t.trusted_root.timestamp_keys with
    | error e =>
      obtain ⟨msg, rfl⟩ := verifySignatures_error_shape heq1
      simp [Tuf.update_timestamp, heq1, isVerificationFailure]
    | ok u =>
      cases u
      simp [Tuf.update_timestamp, heq1, hlt, isVerificationFailure]
  · intro t now op hok
    cases op with
    | root raw =>
      have h' : isOkR (t.update_root raw).1 = true := by
        simpa [applyOp, isOkR_map] using hok
      simpa [applyOp, roleVersion] using update_root_mono t raw h'
    | timestamp raw =>
      have h' : isOkR (t.update_timestamp now raw).1 = true := by
        simpa [applyOp, isOkR_map] using hok
      simpa [applyOp, roleVersion] using update_timestamp_mono t now raw h'
    | snapshot raw =>
      have h' : isOkR (t.update_snapshot now raw).1 = true := by
        simpa [applyOp, isOkR_map] using hok
      simpa [applyOp, roleVersion] using update_snapshot_mono t now raw h'
    | targets raw =>
      have h' : isOkR (t.update_targets now raw).1 = true := by
        simpa [applyOp, isOkR_map] using hok
      simpa [applyOp, roleVersion] using update_targets_mono t now raw h'
    | delegation parent_role role raw =>
      have h' : isOkR (t.update_delegation now parent_role role raw).1 = true := by
        simpa [applyOp, isOkR_map] using hok
      simpa [applyOp, roleVersion] using update_delegation_mono t now parent_role role raw h'

/-- C3 counterexample: with the trusted snapshot at version 2 and the trusted
timestamp also declaring version 2, the correctly signed snapshot `rawC3` at
version 1 — strictly below the trusted version — does not produce a
verification-failure error as the claim requires: `update_snapshot` returns
`Ok(false)`. -/
theorem snapshot_rollback_is_silent_no_op :
    rawC3.metadata.version < tC3.trusted_snapshot_version ∧
    (tC3.update_snapshot 100 rawC3).1 = .ok false ∧
    isErr (tC3.update_snapshot 100 rawC3).1 = false ∧
    (tC3.update_snapshot 100 rawC3).2 = tC3 := by
  refine ⟨by decide, by decide, by decide, by decide⟩

/-- C3 witness: the rollback branch at a concrete root input (trusted version
5, candidate version 2) and the monotonicity branch at a concrete successful
root update. -/
theorem rollback_defense_and_monotonicity_witness :
    (isVerificationFailure (tHigh.update_root rawC4).1 = true ∧
      (tHigh.update_root rawC4).2 = tHigh) ∧
    roleVersion tBase (Op.root rawC4) ≤
      roleVersion (applyOp tBase 100 (Op.root rawC4)).2 (Op.root rawC4) := by
  refine ⟨rollback_defense_and_monotonicity.1 tHigh rawC4 (by decide), ?_⟩
  exact rollback_defense_and_monotonicity.2.2 tBase 100 (Op.root rawC4) (by decide)

/-- C4: `update_root` on a candidate that passes both signature-threshold
checks: an equal version returns `false` and changes nothing; a lower
version fails with a verification failure; a higher version clears
trusted_timestamp, trusted_snapshot, trusted_targets and all
trusted_delegations, installs the candidate as trusted_root, and returns
`true`. -/
theorem update_root_version_trichotomy (t : Tuf) (raw : Signed RootMetadata)
    (h1 : verifySignatures raw.canonical raw.signatures
      t.trusted_root.root.threshold t.trusted_root.root_keys = .ok ())
    (h2 : verifySignatures raw.canonical raw.signatures
      raw.metadata.root.threshold raw.metadata.root_keys = .ok ()) :
    (raw.metadata.version = t.trusted_root.version →
      t.update_root raw = (.ok false, t)) ∧
    (raw.metadata.version < t.trusted_root.version →
      isVerificationFailure (t.update_root raw).1 = true ∧
      (t.update_root raw).2 = t) ∧
    (t.trusted_root.version < raw.metadata.version →
      t.update_root raw = (.ok true,
        { trusted_root := raw.metadata
          trusted_snapshot := none
          trusted_targets := none
          trusted_timestamp := none
          trusted_delegations := [] })) := by
  refine ⟨?_, ?_, ?_⟩
  · intro hv
    simp [Tuf.update_root, h1, h2, hv]
  · intro hlt
    have hv : ¬ raw.metadata.version = t.trusted_root.version := by omega
    simp [Tuf.update_root, h1, h2, hv, hlt, isVerificationFailure]
  · intro hgt
    have hv : ¬ raw.metadata.version = t.trusted_root.version := by omega
    have hlt : ¬ raw.metadata.version < t.trusted_root.version := by omega
    simp [Tuf.update_root, h1, h2, hv, hlt, Tuf.purge_metadata]

/-- C4 witness: the version-advancing branch at the concrete store `tBase`
(root version 1) and candidate `rawC4` (version 2), whose two signature
checks are discharged by evaluation. -/
theorem update_root_version_trichotomy_witness :
    tBase.update_root rawC4 = (.ok true,
      { trusted_root := rawC4.metadata
        trusted_snapshot := none
        trusted_targets := none
        trusted_timestamp := none
        trusted_delegations := [] }) :=
  (update_root_version_trichotomy tBase rawC4 (by decide) (by decide)).2.2 (by decide)

/-- C5: In the depth-first delegation walk, a non-terminating branch that
yields no target description causes the search to continue with the next
sibling — amended: a branch continues with the next sibling delegation in
exactly two miss cases: when the trusted delegated metadata is present,
unexpired, does not contain the target and has no child delegations
(tuf.rs 796's `if let` has no else, so control falls through to the next
loop iteration), and when the branch recursed into its child delegations and
the subtree came back non-terminating with no result.  The early branch
failures — role already visited, target path failing the permitted
path-prefix chain, trusted delegated metadata missing, or expired — instead
`return (delegation.terminating, None)` from the current level, abandoning
the remaining same-level siblings and handing control to the enclosing
level.  A branch whose child subtree comes back with `terminating = true`
short-circuits the enclosing search with that subtree's result.  The seven
conjuncts cover, in order: the four early exits (visited, chain mismatch,
missing, expired), the two continue cases (leaf miss, subtree miss), and the
terminating-subtree propagation. -/
theorem delegation_walk_branch_semantics :
    (∀ (t : Tuf) (now fuel depth : Nat) (dt : Bool) (tp : String)
        (d : Delegation) (rest : List Delegation)
        (parents : List (List String)) (visited : List String),
      visited.contains d.role = true →
      lookupGo t now (fuel + 1) dt depth tp (d :: rest) parents visited =
        ((d.terminating, none), visited)) ∧
    (∀ (t : Tuf) (now fuel depth : Nat) (dt : Bool) (tp : String)
        (d : Delegation) (rest : List Delegation)
        (parents : List (List String)) (visited : List String),
      visited.contains d.role = false →
      0 < depth →
      matchesChain tp parents = false →
      lookupGo t now (fuel + 1) dt depth tp (d :: rest) parents visited =
        ((d.terminating, none), d.role :: visited)) ∧
    (∀ (t : Tuf) (now fuel depth : Nat) (dt : Bool) (tp : String)
        (d : Delegation) (rest : List Delegation)
        (parents : List (List String)) (visited : List String),
      visited.contains d.role = false →
      (depth = 0 ∨ matchesChain tp parents = true) →
      mapGet t.trusted_delegations d.role = none →
      lookupGo t now (fuel + 1) dt depth tp (d :: rest) parents visited =
        ((d.terminating, none), d.role :: visited)) ∧
    (∀ (t : Tuf) (now fuel depth : Nat) (dt : Bool) (tp : String)
        (d : Delegation) (rest : List Delegation)
        (parents : List (List String)) (visited : List String)
        (td : TargetsMetadata),
      visited.contains d.role = false →
      (depth = 0 ∨ matchesChain tp parents = true) →
      mapGet t.trusted_delegations d.role = some td →
      td.expires ≤ now →
      lookupGo t now (fuel + 1) dt depth tp (d :: rest) parents visited =
        ((d.terminating, none), d.role :: visited)) ∧
    (∀ (t : Tuf) (now fuel depth : Nat) (dt : Bool) (tp : String)
        (d : Delegation) (rest : List Delegation)
        (parents : List (List String)) (visited : List String)
        (td : TargetsMetadata),
      visited.contains d.role = false →
      (depth = 0 ∨ matchesChain tp parents = true) →
      mapGet t.trusted_delegations d.role = some td →
      ¬ td.expires ≤ now →
      mapGet td.targets tp = none →
      td.delegations = none →
      lookupGo t now (fuel + 1) dt depth tp (d :: rest) parents visited =
        lookupGo t now fuel dt depth tp rest parents (d.role :: visited)) ∧
    (∀ (t : Tuf) (now fuel depth : Nat) (dt : Bool) (tp : String)
        (d : Delegation) (rest : List Delegation)
        (parents : List (List String)) (visited v' : List String)
        (td : TargetsMetadata) (child : Delegations)
        (res : Option TargetDescription),
      visited.contains d.role = false →
      (depth = 0 ∨ matchesChain tp parents = true) →
      mapGet t.trusted_delegations d.role = some td →
      ¬ td.expires ≤ now →
      mapGet td.targets tp = none →
      td.delegations = some child →
      lookupGo t now fuel d.terminating (depth + 1) tp child.roles
        (parents ++ [d.paths]) (d.role :: visited) = ((true, res), v') →
      lookupGo t now (fuel + 1) dt depth tp (d :: rest) parents visited =
        ((true, res), v')) ∧
    (∀ (t : Tuf) (now fuel depth : Nat) (dt : Bool) (tp : String)
        (d : Delegation) (rest : List Delegation)
        (parents : List (List String)) (visited v' : List String)
        (td : TargetsMetadata) (child : Delegations),
      visited.contains d.role = false →
      (depth = 0 ∨ matchesChain tp parents = true) →
      mapGet t.trusted_delegations d.role = some td →
      ¬ td.expires ≤ now →
      mapGet td.targets tp = none →
      td.delegations = some child →
      lookupGo t now fuel d.terminating (depth + 1) tp child.roles
        (parents ++ [d.paths]) (d.role :: visited) = ((false, none), v') →
      lookupGo t now (fuel + 1) dt depth tp (d :: rest) parents visited =
        lookupGo t now fuel dt depth tp rest parents v') := by
  refine ⟨?_, ?_, ?_, ?_, ?_, ?_, ?_⟩
  · intro t now fuel depth dt tp d rest parents visited hv
    have hv' : d.role ∈ visited := by simpa using hv
    simp [lookupGo, hv, hv']
  · intro t now fuel depth dt tp d rest parents visited hnv hdep hmc
    have hnv' : d.role ∉ visited := by simpa using hnv
    simp [lookupGo, hnv, hnv', hdep, hmc]
  · intro t now fuel depth dt tp d rest parents visited hnv hmc hmg
    have hnv' : d.role ∉ visited := by simpa using hnv
    have hguard : (decide (depth > 0) && !matchesChain tp parents) = false := by
      rcases hmc with h0 | hm
      · simp [h0]
      · simp [hm]
    simp [lookupGo, hnv, hnv', hguard, hmg]
  · intro t now fuel depth dt tp d rest parents visited td hnv hmc hmg hexp
    have hnv' : d.role ∉ visited := by simpa using hnv
    have hguard : (decide (depth > 0) && !matchesChain tp parents) = false := by
      rcases hmc with h0 | hm
      · simp [h0]
      · simp [hm]
    simp [lookupGo, hnv, hnv', hguard, hmg, hexp]
  · intro t now fuel depth dt tp d rest parents visited td hnv hmc hmg hexp htgt hch
    have hnv' : d.role ∉ visited := by simpa using hnv
    have hguard : (decide (depth > 0) && !matchesChain tp parents) = false := by
      rcases hmc with h0 | hm
      · simp [h0]
      · simp [hm]
    simp [lookupGo, hnv, hnv', hguard, hmg, hexp, htgt, hch]
  · intro t now fuel depth dt tp d rest parents visited v' td child res
      hnv hmc hmg hexp htgt hch hrec
    have hnv' : d.role ∉ visited := by simpa using hnv
    have hguard : (decide (depth > 0) && !matchesChain tp parents) = false := by
      rcases hmc with h0 | hm
      · simp [h0]
      · simp [hm]
    simp [lookupGo, hnv, hnv', hguard, hmg, hexp, htgt, hch, hrec]
  · intro t now fuel depth dt tp d rest parents visited v' td child
      hnv hmc hmg hexp htgt hch hrec
    have hnv' : d.role ∉ visited := by simpa using hnv
    have hguard : (decide (depth > 0) && !matchesChain tp parents) = false := by
      rcases hmc with h0 | hm
      · simp [h0]
      · simp [hm]
    simp [lookupGo, hnv, hnv', hguard, hmg, hexp, htgt, hch, hrec]

/-- C5 counterexample: in `tC5` the top-level delegations are `[a, b]`, role
`a` is non-terminating with no trusted metadata, and role `b`'s trusted
metadata contains `foo` — yet `target_description` fails with
`TargetUnavailable` because the dead `a` branch abandons its sibling `b`,
where the claim says the search continues with the next sibling (which would
find `foo`). -/
theorem dead_branch_abandons_siblings :
    tC5.target_description 100 "foo" = .error .TargetUnavailable ∧
    mapGet tC5.trusted_delegations "a" = none ∧
    delA.terminating = false ∧
    mapGet tC5.trusted_delegations "b" = some delBMeta ∧
    mapGet delBMeta.targets "foo" = some ⟨3, hashes0⟩ := by
  refine ⟨by decide, by decide, by decide, by decide, by decide⟩

/-- C5 witness: all seven conjuncts at concrete inputs — the visited,
chain-mismatch, missing and expired early exits on `tC5`, `twD`; the
leaf-miss continuation on `twE`; the terminating-subtree propagation on
`twB`; the subtree-miss continuation on `twC` — plus the end-to-end check
that on `twE2` the leaf branch `a` falls through to its sibling `b`, which
resolves the target. -/
theorem delegation_walk_branch_semantics_witness :
    lookupGo tC5 100 2 false 0 "foo" [delA, delB] [] ["a"] = ((false, none), ["a"]) ∧
    lookupGo tC5 100 2 false 1 "foo" [delA, delB] [["bar"]] [] =
      ((false, none), ["a"]) ∧
    lookupGo tC5 100 3 false 0 "foo" [delA, delB] [] [] = ((false, none), ["a"]) ∧
    lookupGo twD 100 2 false 0 "foo" [delA, delB] [] [] = ((false, none), ["a"]) ∧
    lookupGo twE 100 2 false 0 "foo" [delA, delB] [] [] =
      lookupGo twE 100 1 false 0 "foo" [delB] [] ["a"] ∧
    lookupGo twB 100 2 false 0 "foo" [delA, delB] [] [] = ((true, none), ["a"]) ∧
    lookupGo twC 100 2 false 0 "foo" [delA, delB] [] [] =
      lookupGo twC 100 1 false 0 "foo" [delB] [] ["a"] ∧
    twE2.target_description 100 "foo" = .ok ⟨3, hashes0⟩ := by
  refine ⟨?_, ?_, ?_, ?_, ?_, ?_, ?_, by decide⟩
  · exact delegation_walk_branch_semantics.1 tC5 100 1 0 false "foo" delA [delB]
      [] ["a"] (by decide)
  · exact delegation_walk_branch_semantics.2.1 tC5 100 1 1 false "foo" delA [delB]
      [["bar"]] [] (by decide) (by decide) (by decide)
  · exact delegation_walk_branch_semantics.2.2.1 tC5 100 2 0 false "foo" delA [delB]
      [] [] (by decide) (Or.inl rfl) (by decide)
  · exact delegation_walk_branch_semantics.2.2.2.1 twD 100 1 0 false "foo" delA
      [delB] [] [] tdExp (by decide) (Or.inl rfl) (by decide) (by decide)
  · exact delegation_walk_branch_semantics.2.2.2.2.1 twE 100 1 0 false "foo" delA
      [delB] [] [] tdLeaf (by decide) (Or.inl rfl) (by decide) (by decide)
      (by decide) (by decide)
  · exact delegation_walk_branch_semantics.2.2.2.2.2.1 twB 100 1 0 false "foo" delA
      [delB] [] [] ["a"] tdA ⟨[(5, kDel)], [dSelfTerm]⟩ none
      (by decide) (Or.inl rfl) (by decide) (by decide) (by decide) (by decide)
      (by decide)
  · exact delegation_walk_branch_semantics.2.2.2.2.2.2 twC 100 1 0 false "foo" delA
      [delB] [] [] ["a"] tdA2 ⟨[(5, kDel)], [delA]⟩
      (by decide) (Or.inl rfl) (by decide) (by decide) (by decide) (by decide)
      (by decide)

/-- C6: When a candidate targets metadata passes the signature and version
checks but is expired, `update_targets` fails with an `ExpiredMetadata`
error — the claim says the error names the targets role; the code at
tuf.rs 593 names `Role::Snapshot` instead, although the check it implements
is the targets freeze-attack check of TUF-1.0.5 §5.4.3 quoted directly above
it (the analogous check in `update_delegation`, tuf.rs 737, names
`Role::Targets`).  Evaluating the embedded code at the failing input: the
expired, correctly signed, version-matching candidate `rawC6` produces
`ExpiredMetadata(Snapshot)`. -/
theorem expired_targets_reports_snapshot_role :
    rawC6.metadata.expires ≤ 100 ∧
    rawC6.metadata.version = (descV 2).version ∧
    tC6.update_targets 100 rawC6 = (.error (.ExpiredMetadata .Snapshot), tC6) := by
  refine ⟨by decide, by decide, by decide⟩

/-- C7: `update_timestamp` fails with an expired-root error whenever the
trusted root is expired — amended: `update_timestamp` performs no
root-expiration check at all (the FIXME at tuf.rs 259-261 records that the
check done by the other `update_*` methods is deliberately absent here), so
it can never return `ExpiredMetadata(Root)`, whatever the trusted root's
expiry. -/
theorem update_timestamp_no_expired_root_error (t : Tuf) (now : Nat)
    (raw : Signed TimestampMetadata) :
    isExpiredRootError (t.update_timestamp now raw).1 = false := by
  cases heq1 : verifySignatures raw.canonical raw.signatures
      t.trusted_root.timestamp.threshold t.trusted_root.timestamp_keys with
  | error e =>
    obtain ⟨msg, rfl⟩ := verifySignatures_error_shape heq1
    simp [Tuf.update_timestamp, heq1, isExpiredRootError]
  | ok u =>
    cases u
    by_cases hlt : raw.metadata.version < t.trusted_timestamp_version
    · simp [Tuf.update_timestamp, heq1, hlt, isExpiredRootError]
    · by_cases hv : raw.metadata.version = t.trusted_timestamp_version
      · simp [Tuf.update_timestamp, heq1, hlt, hv, isExpiredRootError]
      · by_cases hexp : raw.metadata.expires ≤ now
        · by_cases hsv : t.trusted_snapshot_version = raw.metadata.snapshot.version
          · simp [Tuf.update_timestamp, heq1, hlt, hv, hexp, hsv, isExpiredRootError]
          · simp [Tuf.update_timestamp, heq1, hlt, hv, hexp, hsv, isExpiredRootError]
        · simp [Tuf.update_timestamp, heq1, hlt, hv, hexp, isExpiredRootError]

/-- C7 counterexample: at time 100 the trusted root of `tC7` is expired
(expiry 50), yet a correctly signed fresh timestamp is accepted and promoted
rather than rejected with `ExpiredMetadata(Root)`. -/
theorem expired_root_timestamp_update_succeeds :
    tC7.trusted_root.expires ≤ 100 ∧
    (tC7.update_timestamp 100 rawC7).1 = .ok (some rawC7.metadata) ∧
    (tC7.update_timestamp 100 rawC7).2.trusted_timestamp = some rawC7.metadata := by
  refine ⟨by decide, by decide, by decide⟩

/-- C8: `update_snapshot` fails with a verification failure whenever the
candidate's version differs from the version declared in the trusted
timestamp, and `update_targets` likewise against the trusted snapshot's
declared targets version — amended: the mix-and-match check fires once the
update proceeds past its gates, i.e. when the root and the outer pointer
metadata are unexpired, the declared version exceeds the currently trusted
version, and the signature check passes; then a candidate whose version
differs from the declared version fails with a verification failure and is
not promoted.  (When the declared version equals the trusted one the call
returns `Ok(false)` without ever reading the candidate's version — see the
counterexample — so the claim's unconditional "whenever" does not hold.) -/
theorem mix_and_match_defense :
    (∀ (t : Tuf) (now : Nat) (raw : Signed SnapshotMetadata)
        (ts : TimestampMetadata),
      ¬ t.trusted_root.expires ≤ now →
      t.trusted_timestamp = some ts →
      ¬ ts.expires ≤ now →
      t.trusted_snapshot_version < ts.snapshot.version →
      verifySignatures raw.canonical raw.signatures
        t.trusted_root.snapshot.threshold t.trusted_root.snapshot_keys = .ok () →
      raw.metadata.version ≠ ts.snapshot.version →
      isVerificationFailure (t.update_snapshot now raw).1 = true ∧
      (t.update_snapshot now raw).2 = t) ∧
    (∀ (t : Tuf) (now : Nat) (raw : Signed TargetsMetadata)
        (snap : SnapshotMetadata) (desc : MetadataDescription),
      ¬ t.trusted_root.expires ≤ now →
      t.trusted_snapshot = some snap →
      ¬ snap.expires ≤ now →
      mapGet snap.meta "targets" = some desc →
      t.trusted_targets_version < desc.version →
      verifySignatures raw.canonical raw.signatures
        t.trusted_root.targets.threshold t.trusted_root.targets_keys = .ok () →
      raw.metadata.version ≠ desc.version →
      isVerificationFailure (t.update_targets now raw).1 = true ∧
      (t.update_targets now raw).2 = t) := by
  constructor
  · intro t now raw ts hroot hts htse hlt hsig hne
    have heqr : t.trusted_root_unexpired now = .ok t.trusted_root := by
      simp [Tuf.trusted_root_unexpired, hroot]
    have heqt : t.trusted_timestamp_unexpired now = .ok ts := by
      simp [Tuf.trusted_timestamp_unexpired, hts, htse]
    have h1 : ¬ ts.snapshot.version < t.trusted_snapshot_version := by omega
    have h2 : ¬ ts.snapshot.version = t.trusted_snapshot_version := by omega
    simp [Tuf.update_snapshot, heqr, heqt, h1, h2, hsig, hne, isVerificationFailure]
  · intro t now raw snap desc hroot hsnap hsnape hdesc hlt hsig hne
    have heqr : t.trusted_root_unexpired now = .ok t.trusted_root := by
      simp [Tuf.trusted_root_unexpired, hroot]
    have heqs : t.trusted_snapshot_unexpired now = .ok snap := by
      simp [Tuf.trusted_snapshot_unexpired, hsnap, hsnape]
    have h1 : ¬ desc.version < t.trusted_targets_version := by omega
    have h2 : ¬ desc.version = t.trusted_targets_version := by omega
    simp [Tuf.update_targets, heqr, heqs, hdesc, h1, h2, hsig, hne,
      isVerificationFailure]

/-- C8 counterexample: in `tC3` the trusted timestamp declares snapshot
version 2, which equals the trusted snapshot version, so the correctly
signed candidate `rawC8` at version 5 — different from the declared
version — is answered by a silent `Ok(false)` no-op instead of the
verification failure the claim requires. -/
theorem snapshot_version_mismatch_silently_ignored :
    tC3.trusted_timestamp = some ⟨2, 500, descV 2⟩ ∧
    rawC8.metadata.version ≠ (descV 2).version ∧
    (tC3.update_snapshot 100 rawC8).1 = .ok false ∧
    isVerificationFailure (tC3.update_snapshot 100 rawC8).1 = false ∧
    (tC3.update_snapshot 100 rawC8).2 = tC3 := by
  refine ⟨by decide, by decide, by decide, by decide, by decide⟩

/-- C8 witness: both conjuncts at concrete inputs — a snapshot at version 3
against a declared version 2, and a targets at version 3 against a declared
version 2 — each rejected with a verification failure, states unchanged. -/
theorem mix_and_match_defense_witness :
    (isVerificationFailure (tC10.update_snapshot 100 rawC8w).1 = true ∧
      (tC10.update_snapshot 100 rawC8w).2 = tC10) ∧
    (isVerificationFailure (tC6.update_targets 100 rawC8t).1 = true ∧
      (tC6.update_targets 100 rawC8t).2 = tC6) := by
  constructor
  · exact mix_and_match_defense.1 tC10 100 rawC8w ⟨1, 500, descV 2⟩
      (by decide) (by decide) (by decide) (by decide) (by decide) (by decide)
  · exact mix_and_match_defense.2 tC6 100 rawC8t ⟨1, 500, [("targets", descV 2)]⟩
      (descV 2) (by decide) (by decide) (by decide) (by decide) (by decide)
      (by decide) (by decide)

/-- C9: Path construction must fail for exactly the illegal strings, which
include components case-insensitively equal to a Windows device name — but
the code's device-name check is dead: `safe_path` compares the *lowercased*
component against the *upper-case* constants of
`PATH_ILLEGAL_COMPONENTS_CASE_INSENSITIVE` (metadata.rs 130-139), an
equality that can never hold, even though the constant's name, its "DOS
device files" comment and the explicit lowercasing show the intent the claim
states.  Evaluating the embedded code at the failing input: the device name
`CON`, illegal per the claim (`specPathIllegal`), is accepted by `safe_path`
and all three path constructors, with `value()` byte-identical. -/
theorem device_name_path_accepted :
    safe_path "CON" = .ok () ∧
    MetadataPath.new "CON" = .ok ⟨"CON"⟩ ∧
    VirtualTargetPath.new "CON" = .ok ⟨"CON"⟩ ∧
    TargetPath.new "CON" = .ok ⟨"CON"⟩ ∧
    specPathIllegal "CON" = true := by
  refine ⟨by decide, by decide, by decide, by decide, by decide⟩

/-- C10: `update_snapshot` performs no expiration check on the candidate: a
candidate that passes the signature and version checks is promoted and the
call returns `true` even when its `expires` is at or before the current
time (conjunct one); the snapshot's expiration is enforced only by the later
operations that use the trusted snapshot — `update_targets`,
`update_delegation` and `target_description` each fail with
`ExpiredMetadata(Snapshot)` once the trusted snapshot is expired
(conjuncts two to four). -/
theorem snapshot_expiration_unchecked_at_acceptance :
    (∀ (t : Tuf) (now : Nat) (raw : Signed SnapshotMetadata)
        (ts : TimestampMetadata),
      ¬ t.trusted_root.expires ≤ now →
      t.trusted_timestamp = some ts →
      ¬ ts.expires ≤ now →
      t.trusted_snapshot_version < ts.snapshot.version →
      verifySignatures raw.canonical raw.signatures
        t.trusted_root.snapshot.threshold t.trusted_root.snapshot_keys = .ok () →
      raw.metadata.version = ts.snapshot.version →
      raw.metadata.expires ≤ now →
      (t.update_snapshot now raw).1 = .ok true ∧
      (t.update_snapshot now raw).2.trusted_snapshot = some raw.metadata) ∧
    (∀ (t : Tuf) (now : Nat) (raw : Signed TargetsMetadata)
        (snap : SnapshotMetadata),
      ¬ t.trusted_root.expires ≤ now →
      t.trusted_snapshot = some snap →
      snap.expires ≤ now →
      (t.update_targets now raw).1 = .error (.ExpiredMetadata .Snapshot)) ∧
    (∀ (t : Tuf) (now : Nat) (parent_role role : String)
        (raw : Signed TargetsMetadata) (snap : SnapshotMetadata),
      ¬ t.trusted_root.expires ≤ now →
      t.trusted_snapshot = some snap →
      snap.expires ≤ now →
      (t.update_delegation now parent_role role raw).1 =
        .error (.ExpiredMetadata .Snapshot)) ∧
    (∀ (t : Tuf) (now : Nat) (tp : String) (snap : SnapshotMetadata),
      ¬ t.trusted_root.expires ≤ now →
      t.trusted_snapshot = some snap →
      snap.expires ≤ now →
      t.target_description now tp = .error (.ExpiredMetadata .Snapshot)) := by
  refine ⟨?_, ?_, ?_, ?_⟩
  · intro t now raw ts hroot hts htse hlt hsig hv hexp
    have heqr : t.trusted_root_unexpired now = .ok t.trusted_root := by
      simp [Tuf.trusted_root_unexpired, hroot]
    have heqt : t.trusted_timestamp_unexpired now = .ok ts := by
      simp [Tuf.trusted_timestamp_unexpired, hts, htse]
    have h1 : ¬ ts.snapshot.version < t.trusted_snapshot_version := by omega
    have h2 : ¬ ts.snapshot.version = t.trusted_snapshot_version := by omega
    have h3 : ¬ raw.metadata.version ≠ ts.snapshot.version := by omega
    have h4 : ¬ raw.metadata.version < t.trusted_snapshot_version := by omega
    simp [Tuf.update_snapshot, heqr, heqt, h1, h2, hsig, h3, h4,
      purge_delegations_trusted_snapshot]
  · intro t now raw snap hroot hsnap hsnape
    have heqr : t.trusted_root_unexpired now = .ok t.trusted_root := by
      simp [Tuf.trusted_root_unexpired, hroot]
    have heqs : t.trusted_snapshot_unexpired now =
        .error (.ExpiredMetadata .Snapshot) := by
      simp [Tuf.trusted_snapshot_unexpired, hsnap, hsnape]
    simp [Tuf.update_targets, heqr, heqs]
  · intro t now parent_role role raw snap hroot hsnap hsnape
    have heqr : t.trusted_root_unexpired now = .ok t.trusted_root := by
      simp [Tuf.trusted_root_unexpired, hroot]
    have heqs : t.trusted_snapshot_unexpired now =
        .error (.ExpiredMetadata .Snapshot) := by
      simp [Tuf.trusted_snapshot_unexpired, hsnap, hsnape]
    simp [Tuf.update_delegation, heqr, heqs]
  · intro t now tp snap hroot hsnap hsnape
    have heqr : t.trusted_root_unexpired now = .ok t.trusted_root := by
      simp [Tuf.trusted_root_unexpired, hroot]
    have heqs : t.trusted_snapshot_unexpired now =
        .error (.ExpiredMetadata .Snapshot) := by
      simp [Tuf.trusted_snapshot_unexpired, hsnap, hsnape]
    simp [Tuf.target_description, heqr, heqs]

/-- C10 witness: the expired snapshot `rawC10` is promoted by
`update_snapshot` on `tC10`, and on `tC10exp` (whose trusted snapshot is
expired) the three later operations fail with `ExpiredMetadata(Snapshot)`. -/
theorem snapshot_expiration_unchecked_witness :
    ((tC10.update_snapshot 100 rawC10).1 = .ok true ∧
      (tC10.update_snapshot 100 rawC10).2.trusted_snapshot = some rawC10.metadata) ∧
    (tC10exp.update_targets 100 rawC6).1 = .error (.ExpiredMetadata .Snapshot) ∧
    (tC10exp.update_delegation 100 "targets" "a" rawC6).1 =
      .error (.ExpiredMetadata .Snapshot) ∧
    tC10exp.target_description 100 "foo" = .error (.ExpiredMetadata .Snapshot) := by
  refine ⟨?_, ?_, ?_, ?_⟩
  · exact snapshot_expiration_unchecked_at_acceptance.1 tC10 100 rawC10
      ⟨1, 500, descV 2⟩ (by decide) (by decide) (by decide) (by decide) (by decide)
      (by decide) (by decide)
  · exact snapshot_expiration_unchecked_at_acceptance.2.1 tC10exp 100 rawC6
      ⟨2, 50, [("targets", descV 1)]⟩ (by decide) (by decide) (by decide)
  · exact snapshot_expiration_unchecked_at_acceptance.2.2.1 tC10exp 100 "targets" "a"
      rawC6 ⟨2, 50, [("targets", descV 1)]⟩ (by decide) (by decide) (by decide)
  · exact snapshot_expiration_unchecked_at_acceptance.2.2.2 tC10exp 100 "foo"
      ⟨2, 50, [("targets", descV 1)]⟩ (by decide) (by decide) (by decide)
